import Mathlib

set_option maxRecDepth 10000

/-!
Verification development for the spec-agent workflow engine.

This file gives a shallow embedding, in Lean 4, of the engine's core:
the data model (`core/models.py`), the spec registry and evaluator
(`core/specs.py`), the router (`core/router.py`), the step/manifest model
(`core/steps.py`, `core/manifest.py`), the error taxonomy
(`core/errors.py`) and the orchestrator (`core/orchestrator.py`).

Modelling conventions:
* Python `dict`s become association lists with in-place update semantics
  (`dictSet` replaces the first binding, else appends), matching CPython's
  insertion-ordered dictionaries.
* JSON-serialisable Python values become the inductive `Value`; numbers are
  modelled as integers (no claim under verification depends on floats).
* Machine-level hashing is modelled bit-faithfully: `compute_fingerprint`
  really builds the canonical JSON document (with CPython's `json.dumps`
  escaping and separators) and truncates a genuine SHA-256 hex digest,
  implemented here over `Nat` with explicit `% 2^32` arithmetic.
* Exceptions become an explicit `PyErr` value threaded through `Except`.
* Side effects that the engine delegates to collaborators outside the core
  under specification (SQLite repositories, the progress callback, wall-clock
  timestamps, and the retry sleep) are omitted: they do not feed back into
  the control flow of the engine.
* The module-level spec and agent registries (mutable dictionaries populated
  through the public `register_spec` / `register_agent` decorators) become an
  explicit environment `Env` passed to the orchestrator.
-/

namespace Workflow

/-- JSON-serialisable Python values as stored in `Context.data`,
`Context.config`, `Context.budgets` (ints there) and friends. -/
inductive Value where
  | null
  | bool (b : Bool)
  | num (n : Int)
  | str (s : String)
  | arr (items : List Value)
  | obj (fields : List (String × Value))
  deriving Repr

/-- Association-list lookup, Python `dict.get`. -/
def dictGet {α : Type} : List (String × α) → String → Option α
  | [], _ => none
  | (k, v) :: rest, key => if k = key then some v else dictGet rest key

/-- Python `d[key] = v`: overwrite the existing binding in place, otherwise
append (CPython dictionaries preserve insertion order). -/
def dictSet {α : Type} : List (String × α) → String → α → List (String × α)
  | [], key, v => [(key, v)]
  | (k, w) :: rest, key, v =>
      if k = key then (k, v) :: rest else (k, w) :: dictSet rest key v

/-- Python `list(d.keys())`. -/
def dictKeys {α : Type} (d : List (String × α)) : List String := d.map (·.1)

/-- Python truthiness of a JSON value (`if not x`). -/
def pyTruthy : Value → Bool
  | .null => false
  | .bool b => b
  | .num n => n != 0
  | .str s => s ≠ ""
  | .arr items => !items.isEmpty
  | .obj fields => !fields.isEmpty

/-- Python `repr` of a string, approximated: CPython prefers single quotes
and switches to double quotes when the text contains a single quote only.
(Escape sequences inside the text are not reproduced; no verified claim
inspects such a message.) -/
def pyReprStr (s : String) : String :=
  if s.data.contains '\'' && !s.data.contains '"' then "\"" ++ s ++ "\""
  else "'" ++ s ++ "'"

mutual

/-- Python `repr` of a JSON value. -/
def pyRepr : Value → String
  | .null => "None"
  | .bool b => if b then "True" else "False"
  | .num n => toString n
  | .str s => pyReprStr s
  | .arr items => "[" ++ pyReprArr items ++ "]"
  | .obj fields => "\x7b" ++ pyReprObj fields ++ "\x7d"

/-- Comma-joined reprs of array elements. -/
def pyReprArr : List Value → String
  | [] => ""
  | [v] => pyRepr v
  | v :: rest => pyRepr v ++ ", " ++ pyReprArr rest

/-- Comma-joined reprs of object entries. -/
def pyReprObj : List (String × Value) → String
  | [] => ""
  | [(k, v)] => pyReprStr k ++ ": " ++ pyRepr v
  | (k, v) :: rest => pyReprStr k ++ ": " ++ pyRepr v ++ ", " ++ pyReprObj rest

end

/-- Python `str` of a JSON value (as interpolated into f-strings). -/
def pyStr : Value → String
  | .str s => s
  | v => pyRepr v

/-- Code-point lexicographic comparison of character lists, the order that
Python string comparison uses. -/
def charsLe : List Char → List Char → Bool
  | [], _ => true
  | _ :: _, [] => false
  | c :: cs, d :: ds =>
      if c.toNat < d.toNat then true
      else if d.toNat < c.toNat then false
      else charsLe cs ds

/-- Python `a <= b` on strings. -/
def strLeB (a b : String) : Bool := charsLe a.data b.data

/-- Python `sorted` on a list of strings. -/
def pySorted (l : List String) : List String :=
  l.insertionSort (fun a b => strLeB a b = true)

/-- UTF-8 encoding of one character, `str.encode()`. -/
def charUtf8 (c : Char) : List Nat :=
  let n := c.toNat
  if n < 128 then [n]
  else if n < 2048 then [192 + n / 64, 128 + n % 64]
  else if n < 65536 then [224 + n / 4096, 128 + n / 64 % 64, 128 + n % 64]
  else [240 + n / 262144, 128 + n / 4096 % 64, 128 + n / 64 % 64, 128 + n % 64]

/-- UTF-8 bytes of a string. -/
def strBytes (s : String) : List Nat :=
  (s.data.map charUtf8).flatten

/-- Lowercase hex digit. -/
def hexDigit (n : Nat) : Char :=
  (("0123456789abcdef".data).getD n '0')

/-- Four lowercase hex digits, most significant first. -/
def hex4 (n : Nat) : List Char :=
  [hexDigit (n / 4096 % 16), hexDigit (n / 256 % 16),
   hexDigit (n / 16 % 16), hexDigit (n % 16)]

/-- One character of a JSON string as emitted by CPython's `json.dumps`
with its default `ensure_ascii=True`: printable ASCII other than the
quote and backslash passes through, everything else is escaped. -/
def jsonEscapeChar (c : Char) : List Char :=
  let n := c.toNat
  if c = '"' then ['\\', '"']
  else if c = '\\' then ['\\', '\\']
  else if n = 8 then ['\\', 'b']
  else if n = 9 then ['\\', 't']
  else if n = 10 then ['\\', 'n']
  else if n = 12 then ['\\', 'f']
  else if n = 13 then ['\\', 'r']
  else if 32 ≤ n && n ≤ 126 then [c]
  else if n < 65536 then '\\' :: 'u' :: hex4 n
  else
    let m := n - 65536
    ('\\' :: 'u' :: hex4 (55296 + m / 1024)) ++ ('\\' :: 'u' :: hex4 (56320 + m % 1024))

/-- JSON encoding of a string literal. -/
def jsonStr (s : String) : String :=
  "\"" ++ String.mk ((s.data.map jsonEscapeChar).flatten) ++ "\""

/-- JSON encoding of a list of string literals with `json.dumps`'s default
item separator. -/
def jsonStrList (l : List String) : String :=
  "[" ++ String.intercalate ", " (l.map jsonStr) ++ "]"

/-!  SHA-256 over `Nat`, with explicit `% 2 ^ 32` arithmetic.  -/

/-- Word-size modulus. -/
def mask32 : Nat := 4294967296

/-- Modular 32-bit addition. -/
def add32 (a b : Nat) : Nat := (a + b) % mask32

/-- Right rotation of a 32-bit word. -/
def rotr (n x : Nat) : Nat := x / 2 ^ n + x % 2 ^ n * 2 ^ (32 - n)

/-- Logical right shift. -/
def shr (n x : Nat) : Nat := x / 2 ^ n

/-- Bitwise complement of a 32-bit word. -/
def not32 (x : Nat) : Nat := 4294967295 - x

/-- SHA-256 round constants (FIPS 180-4, in decimal). -/
def shaK : List Nat :=
  [1116352408, 1899447441, 3049323471, 3921009573, 961987163, 1508970993,
   2453635748, 2870763221, 3624381080, 310598401, 607225278, 1426881987,
   1925078388, 2162078206, 2614888103, 3248222580, 3835390401, 4022224774,
   264347078, 604807628, 770255983, 1249150122, 1555081692, 1996064986,
   2554220882, 2821834349, 2952996808, 3210313671, 3336571891, 3584528711,
   113926993, 338241895, 666307205, 773529912, 1294757372, 1396182291,
   1695183700, 1986661051, 2177026350, 2456956037, 2730485921, 2820302411,
   3259730800, 3345764771, 3516065817, 3600352804, 4094571909, 275423344,
   430227734, 506948616, 659060556, 883997877, 958139571, 1322822218,
   1537002063, 1747873779, 1955562222, 2024104815, 2227730452, 2361852424,
   2428436474, 2756734187, 3204031479, 3329325298]

/-- SHA-256 initial hash state (FIPS 180-4, in decimal). -/
def shaH0 : List Nat :=
  [1779033703, 3144134277, 1013904242, 2773480762,
   1359893119, 2600822924, 528734635, 1541459225]

/-- Message-schedule sigma-0. -/
def ssig0 (x : Nat) : Nat := Nat.xor (rotr 7 x) (Nat.xor (rotr 18 x) (shr 3 x))

/-- Message-schedule sigma-1. -/
def ssig1 (x : Nat) : Nat := Nat.xor (rotr 17 x) (Nat.xor (rotr 19 x) (shr 10 x))

/-- Compression big-sigma-0. -/
def bsig0 (x : Nat) : Nat := Nat.xor (rotr 2 x) (Nat.xor (rotr 13 x) (rotr 22 x))

/-- Compression big-sigma-1. -/
def bsig1 (x : Nat) : Nat := Nat.xor (rotr 6 x) (Nat.xor (rotr 11 x) (rotr 25 x))

/-- Choice function. -/
def shaCh (e f g : Nat) : Nat := Nat.xor (Nat.land e f) (Nat.land (not32 e) g)

/-- Majority function. -/
def shaMaj (a b c : Nat) : Nat :=
  Nat.xor (Nat.land a b) (Nat.xor (Nat.land a c) (Nat.land b c))

/-- Extend 16 message words to the 64-word schedule. -/
def shaExtend (w16 : List Nat) : List Nat :=
  (List.range 48).foldl
    (fun w i =>
      let x := add32 (add32 (ssig1 (w.getD (14 + i) 0)) (w.getD (9 + i) 0))
                     (add32 (ssig0 (w.getD (1 + i) 0)) (w.getD i 0))
      w ++ [x])
    w16

/-- One SHA-256 compression round. -/
def shaRound (w : List Nat) (st : List Nat) (i : Nat) : List Nat :=
  let a := st.getD 0 0
  let b := st.getD 1 0
  let c := st.getD 2 0
  let d := st.getD 3 0
  let e := st.getD 4 0
  let f := st.getD 5 0
  let g := st.getD 6 0
  let h := st.getD 7 0
  let t1 := add32 h (add32 (bsig1 e) (add32 (shaCh e f g)
              (add32 (shaK.getD i 0) (w.getD i 0))))
  let t2 := add32 (bsig0 a) (shaMaj a b c)
  [add32 t1 t2, a, b, c, add32 d t1, e, f, g]

/-- Compress one 16-word block into the running hash state. -/
def shaCompress (h : List Nat) (block : List Nat) : List Nat :=
  let w := shaExtend block
  let st := (List.range 64).foldl (shaRound w) h
  List.zipWith add32 h st

/-- Big-endian 4-byte groups into 32-bit words. -/
def bytesToWords : List Nat → List Nat
  | b0 :: b1 :: b2 :: b3 :: rest =>
      (b0 * 16777216 + b1 * 65536 + b2 * 256 + b3) :: bytesToWords rest
  | _ => []

/-- Split a word list into 16-word blocks (padded SHA-256 input always has
a multiple of 16 words; a ragged tail cannot occur). -/
def chunks16 : List Nat → List (List Nat)
  | [] => []
  | w0 :: w1 :: w2 :: w3 :: w4 :: w5 :: w6 :: w7 ::
    w8 :: w9 :: w10 :: w11 :: w12 :: w13 :: w14 :: w15 :: rest =>
      [w0, w1, w2, w3, w4, w5, w6, w7, w8, w9, w10, w11, w12, w13, w14, w15] ::
        chunks16 rest
  | l => [l]

/-- SHA-256 padding: `0x80`, zeros, then the 64-bit big-endian bit length. -/
def shaPad (msg : List Nat) : List Nat :=
  let padLen := (64 - (msg.length + 9) % 64) % 64
  let bitLen := msg.length * 8
  msg ++ 128 :: List.replicate padLen 0 ++
    (List.range 8).map (fun j => bitLen / 2 ^ (8 * (7 - j)) % 256)

/-- SHA-256 of a byte sequence, as eight 32-bit words. -/
def sha256Words (msg : List Nat) : List Nat :=
  (chunks16 (bytesToWords (shaPad msg))).foldl shaCompress shaH0

/-- Eight lowercase hex digits of a 32-bit word. -/
def wordHex (w : Nat) : List Char :=
  hex4 (w / 65536) ++ hex4 (w % 65536)

/-- Hex digest characters of SHA-256. -/
def sha256HexChars (msg : List Nat) : List Char :=
  ((sha256Words msg).map wordHex).flatten

/-- `hashlib.sha256(bytes).hexdigest()`. -/
def sha256Hex (msg : List Nat) : String :=
  String.mk (sha256HexChars msg)

/-- `StepAttempt.compute_fingerprint` (`core/models.py`): canonical JSON of
the step id, the sorted `data` key list and the sorted failing rule ids
(`json.dumps` with `sort_keys=True` orders the three fixed field names
alphabetically: `data_keys`, `failed_rules`, `step_id`), hashed with SHA-256
and truncated to the first 16 hex characters. -/
def compute_fingerprint (step_id : String) (context_data : List (String × Value))
    (failed_rule_ids : List String) : String :=
  let canonical :=
    "\x7b\"data_keys\": " ++ jsonStrList (pySorted (dictKeys context_data)) ++
    ", \"failed_rules\": " ++ jsonStrList (pySorted failed_rule_ids) ++
    ", \"step_id\": " ++ jsonStr step_id ++ "\x7d"
  String.mk ((sha256HexChars (strBytes canonical)).take 16)

/-! Data model (`core/models.py`).  Wall-clock timestamp fields
(`started_at`, `finished_at`) are omitted: they never influence control
flow. -/

/-- `RunStatus` enum. -/
inductive RunStatus where
  | pending | running | completed | failed
  deriving DecidableEq, Repr

/-- `StepStatus` enum. -/
inductive StepStatus where
  | pending | running | passed | failed
  deriving DecidableEq, Repr

/-- `SpecResult`: outcome of evaluating a single spec function. -/
structure SpecResult where
  rule_id : String
  passed : Bool
  message : String := ""
  suggested_fix : String := ""
  tags : List String := []
  deriving DecidableEq, Repr

/-- `Context`: shared state container for a workflow run.  `run_id` is an
opaque caller-assigned identifier (`uuid.uuid4()` at creation in the
source); `trace` entries are dictionaries. -/
structure Context where
  run_id : String := ""
  data : List (String × Value) := []
  artifacts : List (String × Value) := []
  trace : List (List (String × Value)) := []
  budgets : List (String × Int) :=
    [("max_retries_per_step", 3), ("max_total_steps", 20)]
  config : List (String × Value) := []

/-- `Context.snapshot_data`: `json.loads(json.dumps(data, default=str))`.
On the JSON values of the model the round trip is the identity. -/
def Context.snapshot_data (ctx : Context) : List (String × Value) := ctx.data

/-- `StepAttempt`: record of a single step execution attempt. -/
structure StepAttempt where
  step_id : String
  agent_id : String
  attempt : Nat
  status : StepStatus
  pre_results : List SpecResult := []
  post_results : List SpecResult := []
  invariant_results : List SpecResult := []
  context_before : List (String × Value) := []
  context_after : List (String × Value) := []
  fingerprint : String := ""
  error : Option String := none

/-- `RunRecord`: complete record of a workflow execution. -/
structure RunRecord where
  run_id : String
  manifest_name : String
  status : RunStatus
  steps : List StepAttempt := []
  error : Option String := none
  input_folder : Value := .str ""
  output_folder : Value := .str ""
  model_name : Value := .str "gpt-4o"

/-! Error taxonomy (`core/errors.py`).  A raised exception is modelled as a
`PyErr` value carried in `Except`; `pyErrStr` is `str(e)` as produced by the
constructors in the source. -/

/-- Exceptions that can cross the boundaries the claims talk about. -/
inductive PyErr where
  | loopDetected (step_id : String) (fingerprint : String)
  | budgetExhausted (budget_name : String) (limit : Int)
  | other (msg : String)
  deriving DecidableEq, Repr

/-- Python `str(e)` for the modelled exceptions. -/
def pyErrStr : PyErr → String
  | .loopDetected s fp => "Loop detected: step '" ++ s ++ "' repeated with fingerprint " ++ fp
  | .budgetExhausted n l => "Budget '" ++ n ++ "' exhausted (limit: " ++ toString l ++ ")"
  | .other m => m

/-- `LoopDetectedError` and `BudgetExhaustedError` must escape the per-step
try/except; everything else is caught there. -/
def PyErr.isFatal : PyErr → Bool
  | .loopDetected _ _ => true
  | .budgetExhausted _ _ => true
  | .other _ => false

/-! Spec registry and evaluator (`core/specs.py`).  A spec function receives
the run's mutable `Context`; the model makes the (possible) mutation explicit
by returning a context next to the result, and makes a raised exception
explicit with `Except`.  Every spec registered by the source returns its
context unchanged, faithfully to the bodies, which only read. -/

/-- The type of a registered spec function. -/
def SpecFn : Type := Context → Except PyErr (SpecResult × Context)

/-- Python `repr` of a list of strings (for error messages). -/
def pyReprStrList (l : List String) : String :=
  "[" ++ String.intercalate ", " (l.map pyReprStr) ++ "]"

/-- Python `repr` of a list of naturals (for error messages). -/
def natListRepr (l : List Nat) : String :=
  "[" ++ String.intercalate ", " (l.map toString) ++ "]"

/-- Python `len` of a JSON value; raises `TypeError` on unsized values. -/
def pyLen : Value → Except PyErr Nat
  | .str s => .ok s.length
  | .arr items => .ok items.length
  | .obj fields => .ok fields.length
  | _ => .error (.other "TypeError: object has no len()")

/-- `get_spec`: look up a spec function, raising `KeyError` when absent
(Python's `str` of a `KeyError` is the `repr` of its argument). -/
def get_spec (registry : List (String × SpecFn)) (name : String) : Except PyErr SpecFn :=
  match dictGet registry name with
  | some f => .ok f
  | none => .error (.other (pyReprStr
      ("Unknown spec: '" ++ name ++ "'. Available: " ++ pyReprStrList (dictKeys registry))))

/-- `evaluate_specs`: evaluate a list of specs left to right against the
shared context; the context accumulated so far survives a raised exception
(the Python object is mutated in place). -/
def evaluate_specs (registry : List (String × SpecFn)) :
    List String → Context → Except PyErr (List SpecResult) × Context
  | [], ctx => (.ok [], ctx)
  | n :: ns, ctx =>
    match get_spec registry n with
    | .error e => (.error e, ctx)
    | .ok f =>
      match f ctx with
      | .error e => (.error e, ctx)
      | .ok (r, ctx1) =>
        match evaluate_specs registry ns ctx1 with
        | (.ok rs, ctx2) => (.ok (r :: rs), ctx2)
        | (.error e, ctx2) => (.error e, ctx2)

/-- `all_passed`. -/
def all_passed (results : List SpecResult) : Bool := results.all (·.passed)

/-- `intake_pre`: `input_folder` must be set and non-empty. -/
def intake_pre : SpecFn := fun context =>
  let folder := (dictGet context.data "input_folder").getD (.str "")
  if !pyTruthy folder then
    .ok ({ rule_id := "intake_pre", passed := false,
           message := "input_folder is not set in context.data",
           suggested_fix := "Set context.data['input_folder'] to a valid directory path",
           tags := ["pre", "intake"] }, context)
  else
    .ok ({ rule_id := "intake_pre", passed := true,
           message := "input_folder is set: " ++ pyStr folder,
           tags := ["pre", "intake"] }, context)

/-- `intake_post`: `loaded_files` must be a non-empty list. -/
def intake_post : SpecFn := fun context =>
  let files := (dictGet context.data "loaded_files").getD (.arr [])
  match files with
  | .arr items =>
    if items.length = 0 then
      .ok ({ rule_id := "intake_post", passed := false,
             message := "No files were loaded",
             suggested_fix := "Ensure input_folder contains .txt or .md files",
             tags := ["post", "intake"] }, context)
    else
      .ok ({ rule_id := "intake_post", passed := true,
             message := toString items.length ++ " file(s) loaded",
             tags := ["post", "intake"] }, context)
  | _ =>
    .ok ({ rule_id := "intake_post", passed := false,
           message := "No files were loaded",
           suggested_fix := "Ensure input_folder contains .txt or .md files",
           tags := ["post", "intake"] }, context)

/-- `extract_pre`: `loaded_files` must exist and `api_key` must be set. -/
def extract_pre : SpecFn := fun context =>
  let files := (dictGet context.data "loaded_files").getD (.arr [])
  let api_key := (dictGet context.config "api_key").getD (.str "")
  if !pyTruthy files then
    .ok ({ rule_id := "extract_pre", passed := false,
           message := "No loaded_files in context",
           suggested_fix := "Run the intake step first to load files",
           tags := ["pre", "extract"] }, context)
  else if !pyTruthy api_key then
    .ok ({ rule_id := "extract_pre", passed := false,
           message := "api_key is not configured",
           suggested_fix := "Set the OpenAI API key in settings",
           tags := ["pre", "extract", "config"] }, context)
  else
    match pyLen files with
    | .error e => .error e
    | .ok n =>
      .ok ({ rule_id := "extract_pre", passed := true,
             message := toString n ++ " file(s) ready, API key configured",
             tags := ["pre", "extract"] }, context)

/-- Indices of extracted items without a truthy `title`; `item.get` on a
non-dictionary raises `AttributeError`. -/
def missingTitles : Nat → List Value → Except PyErr (List Nat)
  | _, [] => .ok []
  | i, item :: rest =>
    match item with
    | .obj fields =>
      match missingTitles (i + 1) rest with
      | .error e => .error e
      | .ok tail =>
        if !pyTruthy ((dictGet fields "title").getD .null) then .ok (i :: tail)
        else .ok tail
    | _ => .error (.other "AttributeError: object has no attribute get")

/-- `extract_post`: `extracted_items` must be non-empty, each with a title. -/
def extract_post : SpecFn := fun context =>
  let items := (dictGet context.data "extracted_items").getD (.arr [])
  let failNoItems : SpecResult :=
    { rule_id := "extract_post", passed := false,
      message := "No items were extracted",
      suggested_fix := "Check LLM response format or input file content",
      tags := ["post", "extract"] }
  match items with
  | .arr l =>
    if l.length = 0 then .ok (failNoItems, context)
    else
      match missingTitles 0 l with
      | .error e => .error e
      | .ok missing =>
        if !missing.isEmpty then
          .ok ({ rule_id := "extract_post", passed := false,
                 message := "Items at indices " ++ natListRepr missing ++ " have no title",
                 suggested_fix := "Ensure LLM prompt requires a title for each item",
                 tags := ["post", "extract", "schema"] }, context)
        else
          .ok ({ rule_id := "extract_post", passed := true,
                 message := toString l.length ++ " item(s) extracted, all with titles",
                 tags := ["post", "extract"] }, context)
  | _ => .ok (failNoItems, context)

/-- `write_pre`: `extracted_items` and `output_folder` must exist. -/
def write_pre : SpecFn := fun context =>
  let items := (dictGet context.data "extracted_items").getD (.arr [])
  let folder := (dictGet context.data "output_folder").getD (.str "")
  if !pyTruthy items then
    .ok ({ rule_id := "write_pre", passed := false,
           message := "No extracted_items to write",
           suggested_fix := "Run the extract step first",
           tags := ["pre", "write"] }, context)
  else if !pyTruthy folder then
    .ok ({ rule_id := "write_pre", passed := false,
           message := "output_folder is not set",
           suggested_fix := "Set context.data['output_folder'] to a valid directory path",
           tags := ["pre", "write"] }, context)
  else
    match pyLen items with
    | .error e => .error e
    | .ok n =>
      .ok ({ rule_id := "write_pre", passed := true,
             message := toString n ++ " item(s) ready, output_folder set: " ++ pyStr folder,
             tags := ["pre", "write"] }, context)

/-- `write_post`: `written_files` must be non-empty. -/
def write_post : SpecFn := fun context =>
  let written := (dictGet context.data "written_files").getD (.arr [])
  match written with
  | .arr items =>
    if items.length = 0 then
      .ok ({ rule_id := "write_post", passed := false,
             message := "No files were written",
             suggested_fix := "Check output_folder permissions and disk space",
             tags := ["post", "write"] }, context)
    else
      .ok ({ rule_id := "write_post", passed := true,
             message := toString items.length ++ " file(s) written",
             tags := ["post", "write"] }, context)
  | _ =>
    .ok ({ rule_id := "write_post", passed := false,
           message := "No files were written",
           suggested_fix := "Check output_folder permissions and disk space",
           tags := ["post", "write"] }, context)

/-- `global_invariant`: `run_id` must always be set. -/
def global_invariant : SpecFn := fun context =>
  if context.run_id = "" then
    .ok ({ rule_id := "global_invariant", passed := false,
           message := "run_id is missing from context",
           suggested_fix := "This is an internal error - context was not initialized properly",
           tags := ["invariant"] }, context)
  else
    .ok ({ rule_id := "global_invariant", passed := true,
           message := "run_id=" ++ String.mk (context.run_id.data.take 8) ++ "...",
           tags := ["invariant"] }, context)

/-- `pipeline_progress`: progress score from the populated data keys.  The
source sums the floats 0.33, 0.33, 0.34 and formats with `:.0%`; the
rounded percentages agree exactly with this integer computation in all
eight cases. -/
def pipeline_progress : SpecFn := fun context =>
  let score :=
    (if pyTruthy ((dictGet context.data "loaded_files").getD .null) then 33 else 0) +
    (if pyTruthy ((dictGet context.data "extracted_items").getD .null) then 33 else 0) +
    (if pyTruthy ((dictGet context.data "written_files").getD .null) then 34 else 0)
  .ok ({ rule_id := "pipeline_progress", passed := true,
         message := "Progress: " ++ toString (score : Nat) ++ "%",
         tags := ["progress"] }, context)

/-- The module-level `_SPEC_REGISTRY` as populated by the
`@register_spec(...)` decorators of `core/specs.py`, in registration
order. -/
def SPEC_REGISTRY : List (String × SpecFn) :=
  [("intake_pre", intake_pre), ("intake_post", intake_post),
   ("extract_pre", extract_pre), ("extract_post", extract_post),
   ("write_pre", write_pre), ("write_post", write_post),
   ("global_invariant", global_invariant),
   ("pipeline_progress", pipeline_progress)]

/-! Router (`core/router.py`). -/

/-- A directed edge in the workflow graph. -/
structure Edge where
  from_step : String
  to_step : String
  condition : String := "on_pass"
  deriving DecidableEq, Repr

/-- The declaration-order edge scan inside `Router.next_step`. -/
def nextStepGo (current_step condition : String) : List Edge → Option String
  | [] => none
  | e :: rest =>
    if e.from_step = current_step ∧ (e.condition = condition ∨ e.condition = "always")
    then some e.to_step
    else nextStepGo current_step condition rest

/-- `Router.next_step`: scan the edges in declaration order and return the
target of the first edge from the current step whose condition matches the
outcome (`always` matches either outcome); `none` when no edge matches. -/
def next_step (edges : List Edge) (current_step : String) (step_passed : Bool) :
    Option String :=
  nextStepGo current_step (if step_passed then "on_pass" else "on_fail") edges

/-! Step definitions (`core/steps.py`).  `delay_seconds` only feeds the
retry sleep, a no-op in the model, and is held as a natural number. -/

/-- `RetryPolicy`. -/
structure RetryPolicy where
  max_attempts : Nat := 2
  delay_seconds : Nat := 1
  deriving DecidableEq, Repr

/-- `StepDefinition`. -/
structure StepDefinition where
  name : String
  agent_name : String
  pre_specs : List String := []
  post_specs : List String := []
  invariant_specs : List String := []
  retry : RetryPolicy := {}
  deriving DecidableEq, Repr

/-! Manifest parsing (`core/manifest.py`, `Manifest._parse`).  The input
domain is the structurally well-typed raw dictionaries: each optional field
is `none` when the key is missing.  (A raw document whose fields have the
wrong runtime type altogether fails in Python with a `TypeError`-style
exception before any of the validations under verification here fire.) -/

/-- One entry of the raw `steps` mapping, with the nested `specs` and
`retry` dictionaries flattened (`specs.get("pre", [])` and friends). -/
structure RawStep where
  agent : Option String := none
  pre : List String := []
  post : List String := []
  invariant : List String := []
  max_attempts : Option Nat := none
  delay_seconds : Option Nat := none
  deriving DecidableEq, Repr

/-- One entry of the raw `edges` list (`from` and `to` are mandatory keys
in the source — a missing one raises an uncaught `KeyError`). -/
structure RawEdge where
  from_step : String
  to_step : String
  condition : Option String := none
  deriving DecidableEq, Repr

/-- A raw manifest dictionary. -/
structure RawManifest where
  name : Option String := none
  description : Option String := none
  version : Option String := none
  entry_step : Option String := none
  steps : List (String × RawStep) := []
  edges : List RawEdge := []
  defaults : List (String × Value) := []
  budgets : List (String × Int) := []
  deriving Repr

/-- Parsed workflow manifest. -/
structure Manifest where
  name : String
  description : String := ""
  version : String := "1.0"
  entry_step : String
  steps : List (String × StepDefinition)
  edges : List Edge
  defaults : List (String × Value) := []
  budgets : List (String × Int) := []

/-- Python falsiness of `raw.get(key)` for a string-valued key. -/
def strFalsy : Option String → Bool
  | none => true
  | some s => s = ""

/-- Parse the steps mapping, failing on the first step without a truthy
`agent` field. -/
def parseSteps : List (String × RawStep) → Except String (List (String × StepDefinition))
  | [] => .ok []
  | (step_name, sd) :: rest =>
    if strFalsy sd.agent then
      .error ("Step '" ++ step_name ++ "' must have an 'agent' field")
    else
      match parseSteps rest with
      | .error e => .error e
      | .ok tail =>
        .ok ((step_name,
          { name := step_name,
            agent_name := sd.agent.getD "",
            pre_specs := sd.pre, post_specs := sd.post,
            invariant_specs := sd.invariant,
            retry := { max_attempts := sd.max_attempts.getD 2,
                       delay_seconds := sd.delay_seconds.getD 1 } }) :: tail)

/-- `Manifest._parse`: the validations, in source order.  The error string
is the `ManifestError` message. -/
def manifest_parse (raw : RawManifest) : Except String Manifest :=
  if strFalsy raw.name then .error "Manifest must have a 'name' field"
  else if strFalsy raw.entry_step then .error "Manifest must have an 'entry_step' field"
  else if raw.steps.isEmpty then .error "Manifest must define at least one step"
  else
    match parseSteps raw.steps with
    | .error e => .error e
    | .ok steps =>
      let entry := raw.entry_step.getD ""
      if (dictGet steps entry).isNone then
        .error ("entry_step '" ++ entry ++ "' not found in steps: " ++
                pyReprStrList (dictKeys steps))
      else
        .ok { name := raw.name.getD "",
              description := raw.description.getD "",
              version := raw.version.getD "1.0",
              entry_step := entry,
              steps := steps,
              edges := raw.edges.map (fun e =>
                { from_step := e.from_step, to_step := e.to_step,
                  condition := e.condition.getD "on_pass" }),
              defaults := raw.defaults,
              budgets := raw.budgets }

/-! Orchestrator (`core/orchestrator.py`).  The SQLite repositories, the
trace persistence, the optional progress callback and the retry sleep are
pure bookkeeping toward collaborators outside the engine core and are
omitted; none of them feeds back into control flow.  The module-level
agent and spec registries become the explicit environment `Env`.  An agent
is `Context → Except PyErr Context`: it may mutate the run state arbitrarily
and may raise. -/

/-- The registries the orchestrator resolves names against. -/
structure Env where
  specs : List (String × SpecFn)
  agents : List (String × (Context → Except PyErr Context))

/-- Per-run fingerprint memory: step name to fingerprints already seen. -/
def Seen : Type := List (String × List String)

/-- Enrich the context after a failed attempt when retries remain
(`_last_error`, `_last_failed_step`, `_retry_attempt`). -/
def enrichAfterFailure (ctx : Context) (step_name : String) (err : Option String)
    (attempt : Nat) : Context :=
  let d1 := dictSet ctx.data "_last_error" ((err.map Value.str).getD Value.null)
  let d2 := dictSet d1 "_last_failed_step" (Value.str step_name)
  let d3 := dictSet d2 "_retry_attempt" (Value.num ((attempt : Int) + 1))
  { ctx with data := d3 }

/-- Mark the in-flight attempt failed with an error message (the generic
`except Exception` arm and the spec-failure arms). -/
def failAttempt (a : StepAttempt) (msg : String) : StepAttempt :=
  { a with status := .failed, error := some msg }

/-- Semicolon-joined `ruleId: message` list for the failing results. -/
def failedMsg (failed : List SpecResult) : String :=
  String.intercalate "; " (failed.map (fun r => r.rule_id ++ ": " ++ r.message))

/-- `Orchestrator._execute_step_attempt`: one attempt of one step.  Returns
the finished attempt together with the context and fingerprint memory, or
propagates a fatal `LoopDetectedError`/`BudgetExhaustedError`; any other
exception is caught and folded into a failed attempt, as in the source. -/
def execStepAttempt (env : Env) (ctx : Context) (sd : StepDefinition)
    (attempt : Nat) (seen : Seen) : Except PyErr (StepAttempt × Context × Seen) :=
  let result : StepAttempt :=
    { step_id := sd.name, agent_id := sd.agent_name, attempt := attempt,
      status := .running, context_before := ctx.snapshot_data }
  match evaluate_specs env.specs sd.pre_specs ctx with
  | (.error e, ctx1) =>
    if e.isFatal then .error e else .ok (failAttempt result (pyErrStr e), ctx1, seen)
  | (.ok pre_results, ctx1) =>
    let result := { result with pre_results := pre_results }
    if !all_passed pre_results then
      let failed := pre_results.filter (fun r => !r.passed)
      .ok (failAttempt result ("Pre-spec failed: " ++ failedMsg failed), ctx1, seen)
    else
      match dictGet env.agents sd.agent_name with
      | none =>
        .ok (failAttempt result
          ("Unknown agent: '" ++ sd.agent_name ++ "'. Available: " ++
           pyReprStrList (dictKeys env.agents)), ctx1, seen)
      | some agent =>
        match agent ctx1 with
        | .error e =>
          if e.isFatal then .error e
          else .ok (failAttempt result (pyErrStr e), ctx1, seen)
        | .ok ctx2 =>
          let result := { result with context_after := ctx2.snapshot_data }
          match evaluate_specs env.specs sd.post_specs ctx2 with
          | (.error e, ctx3) =>
            if e.isFatal then .error e
            else .ok (failAttempt result (pyErrStr e), ctx3, seen)
          | (.ok post_results, ctx3) =>
            let result := { result with post_results := post_results }
            if !all_passed post_results then
              let failed := post_results.filter (fun r => !r.passed)
              let failed_ids := failed.map (·.rule_id)
              let fp := compute_fingerprint sd.name ctx3.snapshot_data failed_ids
              let result := { failAttempt result ("Post-spec failed: " ++ failedMsg failed)
                                with fingerprint := fp }
              let fps := (dictGet seen sd.name).getD []
              if fp ∈ fps then .error (.loopDetected sd.name fp)
              else .ok (result, ctx3, dictSet seen sd.name (fps ++ [fp]))
            else
              match evaluate_specs env.specs sd.invariant_specs ctx3 with
              | (.error e, ctx4) =>
                if e.isFatal then .error e
                else .ok (failAttempt result (pyErrStr e), ctx4, seen)
              | (.ok inv_results, ctx4) =>
                let result := { result with invariant_results := inv_results }
                if !all_passed inv_results then
                  let failed := inv_results.filter (fun r => !r.passed)
                  .ok (failAttempt result ("Invariant failed: " ++ failedMsg failed), ctx4, seen)
                else
                  .ok ({ result with status := .passed }, ctx4, seen)

/-- The `for attempt in range(1, max_attempts + 1)` retry loop of
`Orchestrator.run`.  Returns the attempts appended so far and either the
loop outcome (context, fingerprint memory, whether the step passed) or the
fatal error that escaped; an attempt that raised fatally is not appended,
as in the source, where the exception skips `record.steps.append`. -/
def attemptLoop (env : Env) (sd : StepDefinition) :
    Nat → Nat → Context → List StepAttempt → Seen →
    List StepAttempt × Except PyErr (Context × Seen × Bool)
  | 0, _, ctx, steps, seen => (steps, .ok (ctx, seen, false))
  | remaining + 1, attempt, ctx, steps, seen =>
    match execStepAttempt env ctx sd attempt seen with
    | .error e => (steps, .error e)
    | .ok (att, ctx1, seen1) =>
      let steps1 := steps ++ [att]
      if att.status = .passed then (steps1, .ok (ctx1, seen1, true))
      else if attempt < sd.retry.max_attempts then
        attemptLoop env sd remaining (attempt + 1)
          (enrichAfterFailure ctx1 sd.name att.error attempt) steps1 seen1
      else (steps1, .ok (ctx1, seen1, false))

/-- The `while current_step_name and current_step_name != "__end__"` loop
of `Orchestrator.run`, fuel-indexed: `none` means the available fuel was
exhausted before the loop terminated (the Python loop is not guaranteed to
terminate).  Returns the accumulated attempts and either normal loop exit
or the exception that escaped to the handlers. -/
def runLoop (env : Env) (m : Manifest) :
    Nat → Option String → Context → List StepAttempt → Seen → Nat →
    Option (List StepAttempt × Except PyErr Unit)
  | fuel, current, ctx, steps, seen, completed =>
    match current with
    | none => some (steps, .ok ())
    | some s =>
      if s = "" ∨ s = "__end__" then some (steps, .ok ())
      else
        match fuel with
        | 0 => none
        | fuel' + 1 =>
          match dictGet m.steps s with
          | none => some (steps, .error (.other ("Step '" ++ s ++ "' not found in manifest")))
          | some sd =>
            if (completed : Int) ≥ (dictGet ctx.budgets "max_total_steps").getD 20 then
              some (steps, .error (match dictGet ctx.budgets "max_total_steps" with
                | some b => .budgetExhausted "max_total_steps" b
                | none => .other (pyReprStr "max_total_steps")))
            else
              match attemptLoop env sd sd.retry.max_attempts 1 ctx steps seen with
              | (steps1, .error e) => some (steps1, .error e)
              | (steps1, .ok (ctx1, seen1, passed)) =>
                runLoop env m fuel' (next_step m.edges s passed) ctx1 steps1 seen1
                  (if passed then completed + 1 else completed)

/-- `Orchestrator.run`: build the initial `RunRecord`, drive the loop from
the entry step, and fold a normal exit into `Completed` and an escaped
`BudgetExhaustedError`/`LoopDetectedError`/other exception into `Failed`
with `str(e)`.  `none` only when the fuel ran out mid-loop. -/
def orchestratorRun (env : Env) (m : Manifest) (fuel : Nat) (context : Context) :
    Option RunRecord :=
  let record : RunRecord :=
    { run_id := context.run_id, manifest_name := m.name, status := .running,
      input_folder := (dictGet context.data "input_folder").getD (.str ""),
      output_folder := (dictGet context.data "output_folder").getD (.str ""),
      model_name := (dictGet context.config "model").getD (.str "gpt-4o") }
  match runLoop env m fuel (some m.entry_step) context [] [] 0 with
  | none => none
  | some (steps, .ok ()) => some { record with steps := steps, status := .completed }
  | some (steps, .error e) =>
    some { record with steps := steps, status := .failed, error := some (pyErrStr e) }

/-! Concrete fixtures used by claim witnesses and counterexamples. -/

/-- Whether an edge matches the scan of `next_step` for a given current
step and outcome. -/
def edgeMatches (cur : String) (passed : Bool) (e : Edge) : Prop :=
  e.from_step = cur ∧
    (e.condition = (if passed then "on_pass" else "on_fail") ∨ e.condition = "always")

instance (cur : String) (passed : Bool) (e : Edge) : Decidable (edgeMatches cur passed e) := by
  unfold edgeMatches; infer_instance

/-- The raw manifest of the C9 counterexample: a valid entry step, a
non-empty steps map with agent bindings — but no `name` field. -/
def c9raw : RawManifest :=
  { entry_step := some "a", steps := [("a", { agent := some "x" })] }

/-- A well-formed raw manifest whose only edge points at an undefined
step. -/
def c9rawGood : RawManifest :=
  { name := some "n", entry_step := some "a",
    steps := [("a", { agent := some "x" })],
    edges := [{ from_step := "a", to_step := "ghost" }] }

/-- The context of the C8 witness. -/
def c8wCtx : Context :=
  { run_id := "run-1", data := [("input_folder", Value.str "/tmp/in")] }

/-- The results of the C8 witness evaluation. -/
def c8wRs : List SpecResult :=
  [{ rule_id := "intake_pre", passed := true,
     message := "input_folder is set: /tmp/in", tags := ["pre", "intake"] },
   { rule_id := "pipeline_progress", passed := true,
     message := "Progress: 0%", tags := ["progress"] }]

/-- The mock intake agent of the repository's test suite: populates
`loaded_files`. -/
def mock_intake : Context → Except PyErr Context := fun ctx =>
  let v : Value := .arr [.obj [("filename", .str "test.txt"),
    ("content", .str "Hello world"), ("size", .num 11)]]
  .ok { ctx with data := dictSet ctx.data "loaded_files" v }

/-- The mock extract agent: populates `extracted_items`. -/
def mock_extract : Context → Except PyErr Context := fun ctx =>
  let v : Value := .arr [.obj [("title", .str "Test task"), ("item_type", .str "task")]]
  .ok { ctx with data := dictSet ctx.data "extracted_items" v }

/-- The mock write agent: populates `written_files`. -/
def mock_write : Context → Except PyErr Context := fun ctx =>
  let v : Value := .arr [.str "/tmp/output/results.json"]
  .ok { ctx with data := dictSet ctx.data "written_files" v }

/-- The mock failing agent: returns the context untouched, so the required
output key never appears. -/
def mock_failing : Context → Except PyErr Context := fun ctx => .ok ctx

/-- The mock erroring agent: raises. -/
def mock_error : Context → Except PyErr Context := fun _ =>
  .error (.other "Agent crashed!")

/-- The registries as populated for the end-to-end scenarios. -/
def mockEnv : Env :=
  { specs := SPEC_REGISTRY,
    agents := [("mock_intake", mock_intake), ("mock_extract", mock_extract),
               ("mock_write", mock_write), ("mock_failing", mock_failing),
               ("mock_error", mock_error)] }

/-- The intake step of the happy-path manifest. -/
def happyIntake : StepDefinition :=
  { name := "intake", agent_name := "mock_intake",
    pre_specs := ["intake_pre"], post_specs := ["intake_post"],
    invariant_specs := ["global_invariant"], retry := { max_attempts := 1 } }

/-- The extract step of the happy-path manifest. -/
def happyExtract : StepDefinition :=
  { name := "extract", agent_name := "mock_extract",
    pre_specs := ["extract_pre"], post_specs := ["extract_post"],
    retry := { max_attempts := 1 } }

/-- The write step of the happy-path manifest. -/
def happyWrite : StepDefinition :=
  { name := "write", agent_name := "mock_write",
    pre_specs := ["write_pre"], post_specs := ["write_post"],
    retry := { max_attempts := 1 } }

/-- The three-step linear happy-path manifest. -/
def happyManifest : Manifest :=
  { name := "test_happy", entry_step := "intake",
    steps := [("intake", happyIntake), ("extract", happyExtract), ("write", happyWrite)],
    edges := [{ from_step := "intake", to_step := "extract" },
              { from_step := "extract", to_step := "write" }] }

/-- Scenario B: `extract` is bound to the failing agent with two attempts
and no on-fail edge. -/
def failingManifest : Manifest :=
  { name := "test_failing", entry_step := "intake",
    steps := [
      ("intake", { name := "intake", agent_name := "mock_intake",
                   pre_specs := ["intake_pre"], post_specs := ["intake_post"],
                   retry := { max_attempts := 1 } }),
      ("extract", { name := "extract", agent_name := "mock_failing",
                    pre_specs := ["extract_pre"], post_specs := ["extract_post"],
                    retry := { max_attempts := 2 } })],
    edges := [{ from_step := "intake", to_step := "extract" }] }

/-- The initial context of the end-to-end scenarios. -/
def baseCtx : Context :=
  { run_id := "run-1",
    data := [("input_folder", .str "/tmp/input"), ("output_folder", .str "/tmp/output")],
    config := [("api_key", .str "test-key"), ("model", .str "gpt-4o")] }

/-- The context of the budget scenario: `max_total_steps = 1`. -/
def c4Ctx : Context :=
  { baseCtx with budgets := [("max_total_steps", 1), ("max_retries_per_step", 3)] }

/-- A single step whose pre-spec always fails (the context carries no
`input_folder`). -/
def c2Step : StepDefinition :=
  { name := "a", agent_name := "mock_failing", pre_specs := ["intake_pre"],
    retry := { max_attempts := 1 } }

/-- A cyclic manifest: the step routes to itself on failure. -/
def c2Manifest : Manifest :=
  { name := "cycle", entry_step := "a", steps := [("a", c2Step)],
    edges := [{ from_step := "a", to_step := "a", condition := "on_fail" }] }

/-- An initial context on which `intake_pre` always fails. -/
def c2Ctx : Context := { run_id := "run-c2" }

/-- The failing result of `intake_pre` on a context without an input
folder. -/
def c2PreResult : SpecResult :=
  { rule_id := "intake_pre", passed := false,
    message := "input_folder is not set in context.data",
    suggested_fix := "Set context.data['input_folder'] to a valid directory path",
    tags := ["pre", "intake"] }

/-- The attempt each iteration of the diverging run appends. -/
def c2Att : StepAttempt :=
  { step_id := "a", agent_id := "mock_failing", attempt := 1, status := .failed,
    pre_results := [c2PreResult],
    error := some "Pre-spec failed: intake_pre: input_folder is not set in context.data" }

/-- The run of `c2Manifest` never terminates: each iteration fails the
pre-spec (which is never fingerprinted), routes back to the same step, and
never increments the passed-step counter that the budget compares
against. -/
def c2RunDiverges : Prop :=
  ∀ fuel, orchestratorRun mockEnv c2Manifest fuel c2Ctx = none

/-- A registered spec that always fails with rule id `a`. -/
def spec_always_a : SpecFn := fun c =>
  .ok ({ rule_id := "a", passed := false, message := "m1" }, c)

/-- A registered spec, also with rule id `a`, that fails only on the retry
(the engine's own `_retry_attempt` enrichment reaches 2). -/
def spec_retry_a : SpecFn := fun c =>
  match dictGet c.data "_retry_attempt" with
  | some (.num 2) => .ok ({ rule_id := "a", passed := false, message := "m2" }, c)
  | _ => .ok ({ rule_id := "a", passed := true, message := "m2" }, c)

/-- Registries for the loop-detector scenarios: two specs sharing the rule
id `a`, and an identity agent. -/
def c3Env : Env :=
  let sp := ("p1", spec_always_a) :: ("p2", spec_retry_a) :: SPEC_REGISTRY
  { specs := sp, agents := [("idagent", fun c => .ok c)] }

/-- A step whose post-specs are the two rule-id-sharing specs. -/
def c3Step : StepDefinition :=
  { name := "x", agent_name := "idagent", post_specs := ["p1", "p2"],
    retry := { max_attempts := 2 } }

/-- The manifest of the C3 counterexample run. -/
def c3Manifest : Manifest :=
  { name := "c3", entry_step := "x", steps := [("x", c3Step)], edges := [] }

/-- An initial context that already carries the three enrichment keys, so
the key set is identical at both post-spec failures. -/
def c3Ctx : Context :=
  { run_id := "run-c3",
    data := [("_last_error", .str ""), ("_last_failed_step", .str ""),
             ("_retry_attempt", .num 0)] }

/-- A step with a single always-failing post-spec: both attempts fail with
the same rule list and the same key set, so the second trips the loop
detector. -/
def c3LoopStep : StepDefinition :=
  { name := "y", agent_name := "idagent", post_specs := ["p1"],
    retry := { max_attempts := 2 } }

/-- The manifest of the loop-detection run. -/
def c3LoopManifest : Manifest :=
  { name := "c3loop", entry_step := "y", steps := [("y", c3LoopStep)], edges := [] }

/-- A step with no specs bound to an agent that leaves the context alone:
every attempt passes. -/
def c10Step : StepDefinition :=
  { name := "a", agent_name := "mock_failing", retry := { max_attempts := 1 } }

/-- A manifest whose only edge dangles to the empty string. -/
def c10Manifest : Manifest :=
  { name := "c10", entry_step := "a", steps := [("a", c10Step)],
    edges := [{ from_step := "a", to_step := "" }] }

/-- A manifest whose entry step name is not bound in the steps map. -/
def c10wManifest : Manifest :=
  { name := "w10", entry_step := "ghost", steps := [("a", c10Step)], edges := [] }

/-- The record produced by running `c10wManifest` from `c2Ctx`. -/
def c2wRec : RunRecord :=
  { run_id := "run-c2", manifest_name := "w10", status := .failed, steps := [],
    error := some "Step 'ghost' not found in manifest" }

/-- A step whose pre-spec list names an unregistered spec: every attempt
fails regardless of the context, without ever fingerprinting. -/
def c1wStep : StepDefinition :=
  { name := "w", agent_name := "mock_failing", pre_specs := ["no_such_spec"],
    retry := { max_attempts := 2 } }

/-- The manifest of the C1 witness run. -/
def c1wManifest : Manifest :=
  { name := "c1w", entry_step := "w", steps := [("w", c1wStep)], edges := [] }

/-! Helper lemmas: the code-point order underlying `pySorted` is a total
preorder with antisymmetry, hence sorting is invariant under permutation
of its input. -/

/-- Characters with equal code points are equal. -/
theorem charEqOfToNat {c d : Char} (h : c.toNat = d.toNat) : c = d := by
  cases c with
  | mk cv cp =>
    cases d with
    | mk dv dp =>
      have : cv = dv := UInt32.toNat.inj h
      subst this
      rfl

/-- Totality of the code-point comparison. -/
theorem charsLe_total : ∀ a b : List Char, charsLe a b = true ∨ charsLe b a = true
  | [], _ => Or.inl rfl
  | _ :: _, [] => Or.inr rfl
  | c :: cs, d :: ds => by
    by_cases h1 : c.toNat < d.toNat
    · left; simp [charsLe, h1]
    · by_cases h2 : d.toNat < c.toNat
      · right; simp [charsLe, h2]
      · have ih := charsLe_total cs ds
        simpa [charsLe, h1, h2] using ih

/-- Transitivity of the code-point comparison. -/
theorem charsLe_trans : ∀ a b c : List Char,
    charsLe a b = true → charsLe b c = true → charsLe a c = true
  | [], _, _ => by intro _ _; rfl
  | _ :: _, [], _ => by intro h _; simp [charsLe] at h
  | _ :: _, _ :: _, [] => by intro _ h; simp [charsLe] at h
  | x :: xs, y :: ys, z :: zs => by
    intro hab hbc
    simp only [charsLe] at hab hbc ⊢
    by_cases hxy : x.toNat < y.toNat
    · simp only [hxy, if_true] at hab
      by_cases hyz : y.toNat < z.toNat
      · have : x.toNat < z.toNat := by omega
        simp [this]
      · by_cases hzy : z.toNat < y.toNat
        · simp [hyz, hzy] at hbc
        · have : x.toNat < z.toNat := by omega
          simp [this]
    · by_cases hyx : y.toNat < x.toNat
      · simp [hxy, hyx] at hab
      · by_cases hyz : y.toNat < z.toNat
        · have : x.toNat < z.toNat := by omega
          simp [this]
        · by_cases hzy : z.toNat < y.toNat
          · simp [hyz, hzy] at hbc
          · have hxz : ¬ x.toNat < z.toNat := by omega
            have hzx : ¬ z.toNat < x.toNat := by omega
            simp only [hxy, hyx, if_false] at hab
            simp only [hyz, hzy, if_false] at hbc
            simpa [hxz, hzx] using charsLe_trans xs ys zs hab hbc

/-- Antisymmetry of the code-point comparison. -/
theorem charsLe_antisymm : ∀ a b : List Char,
    charsLe a b = true → charsLe b a = true → a = b
  | [], [] => by intro _ _; rfl
  | [], _ :: _ => by intro _ h; simp [charsLe] at h
  | _ :: _, [] => by intro h _; simp [charsLe] at h
  | c :: cs, d :: ds => by
    intro h1 h2
    simp only [charsLe] at h1 h2
    by_cases hcd : c.toNat < d.toNat
    · have : ¬ d.toNat < c.toNat := by omega
      simp [hcd, this] at h2
    · by_cases hdc : d.toNat < c.toNat
      · simp [hcd, hdc] at h1
      · have hc : c = d := charEqOfToNat (by omega)
        simp only [hcd, hdc, if_false] at h1 h2
        rw [hc, charsLe_antisymm cs ds h1 h2]

instance : IsTotal String (fun a b => strLeB a b = true) :=
  ⟨fun a b => charsLe_total a.data b.data⟩

instance : IsTrans String (fun a b => strLeB a b = true) :=
  ⟨fun a b c => charsLe_trans a.data b.data c.data⟩

instance : IsAntisymm String (fun a b => strLeB a b = true) :=
  ⟨fun a b h1 h2 => by
    cases a with
    | mk la =>
      cases b with
      | mk lb =>
        have : la = lb := charsLe_antisymm la lb h1 h2
        rw [this]⟩

/-- `pySorted` permutes its input. -/
theorem pySorted_perm (l : List String) : List.Perm (pySorted l) l :=
  List.perm_insertionSort _ l

/-- `pySorted` sorts. -/
theorem pySorted_sorted (l : List String) :
    List.Sorted (fun a b => strLeB a b = true) (pySorted l) :=
  List.sorted_insertionSort _ l

/-- Sorting is invariant under permutation of the input. -/
theorem pySorted_congr {l1 l2 : List String} (h : List.Perm l1 l2) :
    pySorted l1 = pySorted l2 :=
  List.eq_of_perm_of_sorted
    ((pySorted_perm l1).trans (h.trans (pySorted_perm l2).symm))
    (pySorted_sorted l1) (pySorted_sorted l2)

/-- The fingerprint depends on the data dictionary only through its key
list up to permutation, and on the failing rule ids only up to
permutation. -/
theorem compute_fingerprint_congr (step_id : String)
    {d1 d2 : List (String × Value)} {f1 f2 : List String}
    (hk : List.Perm (dictKeys d1) (dictKeys d2)) (hf : List.Perm f1 f2) :
    compute_fingerprint step_id d1 f1 = compute_fingerprint step_id d2 f2 := by
  unfold compute_fingerprint
  rw [pySorted_congr hk, pySorted_congr hf]

/-- C7: for equal key sets of dictionaries with unique keys (any values,
any insertion order) and failing rule-id lists equal up to permutation —
but multiplicity-sensitive, which is where the claim needed correction —
`compute_fingerprint` yields the identical string. -/
theorem c7_fingerprint_deterministic :
    ∀ (step : String) (d1 d2 : List (String × Value)) (f1 f2 : List String),
    (dictKeys d1).Nodup → (dictKeys d2).Nodup →
    (dictKeys d1).toFinset = (dictKeys d2).toFinset →
    List.Perm f1 f2 →
    compute_fingerprint step d1 f1 = compute_fingerprint step d2 f2 := by
  intro step d1 d2 f1 f2 h1 h2 h3 hf
  apply compute_fingerprint_congr
  · exact (List.perm_ext_iff_of_nodup h1 h2).2
      (fun a => by rw [← List.mem_toFinset, h3, List.mem_toFinset])
  · exact hf

/-- C7 counterexample: the rule-id lists `["a"]` and `["a", "a"]` are equal
as sets, yet the fingerprints differ, because `sorted` keeps duplicates and
the canonical JSON documents (hence the SHA-256 digests) differ. -/
theorem c7_counterexample :
    (["a", "a"] : List String).toFinset = (["a"] : List String).toFinset ∧
    compute_fingerprint "s" [] ["a"] ≠ compute_fingerprint "s" [] ["a", "a"] := by
  exact ⟨by decide, by decide⟩

/-- C7 witness: the determinism theorem applied at concrete inputs with
permuted keys, different stored values and permuted rule ids. -/
theorem c7_witness :
    ((dictKeys [("a", Value.null), ("b", Value.num 1)]).Nodup ∧
     (dictKeys [("b", Value.str "x"), ("a", Value.arr [])]).Nodup ∧
     (dictKeys [("a", Value.null), ("b", Value.num 1)]).toFinset =
       (dictKeys [("b", Value.str "x"), ("a", Value.arr [])]).toFinset ∧
     List.Perm ["r2", "r1"] ["r1", "r2"]) ∧
    compute_fingerprint "s" [("a", Value.null), ("b", Value.num 1)] ["r2", "r1"] =
      compute_fingerprint "s" [("b", Value.str "x"), ("a", Value.arr [])] ["r1", "r2"] :=
  ⟨⟨by decide, by decide, by decide, by decide⟩,
   c7_fingerprint_deterministic "s" _ _ _ _ (by decide) (by decide) (by decide) (by decide)⟩

/-- The scan returns the first match, as a `find?`. -/
theorem nextStepGo_eq_find (cur : String) (passed : Bool) :
    ∀ edges : List Edge,
      nextStepGo cur (if passed then "on_pass" else "on_fail") edges =
        (edges.find? (fun e => decide (edgeMatches cur passed e))).map Edge.to_step := by
  intro edges
  induction edges with
  | nil => rfl
  | cons e rest ih =>
    by_cases h : edgeMatches cur passed e
    · unfold edgeMatches at h
      simp [nextStepGo, List.find?_cons_of_pos, h, edgeMatches]
    · have h' : ¬(e.from_step = cur ∧
          (e.condition = (if passed then "on_pass" else "on_fail") ∨ e.condition = "always")) := h
      simp only [nextStepGo, if_neg h']
      rw [List.find?_cons_of_neg _ (by simpa using h)]
      exact ih

/-- C5: `Router.next_step` returns the to-step of the first edge in
declaration order whose from-step is the current step and whose condition
matches the outcome (`on_pass` when passed, `on_fail` otherwise, `always`
for either), and returns `none` exactly when no edge matches; hence a
second matching edge is never the one selected. -/
theorem c5_router_first_match (edges : List Edge) (cur : String) (passed : Bool) :
    (next_step edges cur passed =
      (edges.find? (fun e => decide (edgeMatches cur passed e))).map Edge.to_step)
    ∧ (next_step edges cur passed = none ↔ ∀ e ∈ edges, ¬ edgeMatches cur passed e)
    ∧ (∀ l1 e l2, edges = l1 ++ e :: l2 → edgeMatches cur passed e →
        (∀ e1 ∈ l1, ¬ edgeMatches cur passed e1) →
        next_step edges cur passed = some e.to_step) := by
  have hfind := nextStepGo_eq_find cur passed edges
  refine ⟨hfind, ?_, ?_⟩
  · rw [show next_step edges cur passed =
        nextStepGo cur (if passed then "on_pass" else "on_fail") edges from rfl, hfind]
    rw [Option.map_eq_none', List.find?_eq_none]
    constructor
    · intro h e he
      have := h e he
      simpa using this
    · intro h e he
      simpa using h e he
  · intro l1 e l2 hsplit hmatch hbefore
    rw [show next_step edges cur passed =
        nextStepGo cur (if passed then "on_pass" else "on_fail") edges from rfl, hfind, hsplit]
    rw [List.find?_append]
    have h1 : l1.find? (fun e => decide (edgeMatches cur passed e)) = none := by
      rw [List.find?_eq_none]
      intro x hx
      simpa using hbefore x hx
    rw [h1]
    simp [List.find?_cons_of_pos, hmatch]

/-- C5 witness: with two same-condition edges from one step, the first is
selected; an on-fail query with no matching edge yields `none`. -/
theorem c5_witness :
    next_step [⟨"a", "b", "on_pass"⟩, ⟨"a", "c", "on_pass"⟩] "a" true = some "b" ∧
    next_step [⟨"a", "b", "on_pass"⟩, ⟨"a", "c", "on_pass"⟩] "a" false = none := by
  refine ⟨?_, ?_⟩
  · exact (c5_router_first_match [⟨"a", "b", "on_pass"⟩, ⟨"a", "c", "on_pass"⟩] "a" true).2.2
      [] ⟨"a", "b", "on_pass"⟩ [⟨"a", "c", "on_pass"⟩] rfl (by decide)
      (by intro e1 h1; simp at h1)
  · exact (c5_router_first_match [⟨"a", "b", "on_pass"⟩, ⟨"a", "c", "on_pass"⟩] "a" false).2.1.mpr
      (by decide)

/-- `dict.get` misses exactly when the key is not bound. -/
theorem dictGet_isNone_iff {α : Type} :
    ∀ (d : List (String × α)) (k : String), (dictGet d k).isNone ↔ k ∉ dictKeys d := by
  intro d k
  induction d with
  | nil => simp [dictGet, dictKeys]
  | cons p rest ih =>
    by_cases h : p.1 = k
    · simp [dictGet, dictKeys, h]
    · rw [show dictGet (p :: rest) k = dictGet rest k from by simp [dictGet, h],
          show dictKeys (p :: rest) = p.1 :: dictKeys rest from rfl, ih]
      constructor
      · intro hk
        simp only [List.mem_cons, not_or]
        exact ⟨fun heq => h heq.symm, hk⟩
      · intro hk
        simp only [List.mem_cons, not_or] at hk
        exact hk.2

/-- Parsing the steps map succeeds exactly when every step has a truthy
agent binding. -/
theorem parseSteps_ok_iff : ∀ raws : List (String × RawStep),
    (∃ s, parseSteps raws = .ok s) ↔ ∀ p ∈ raws, strFalsy p.2.agent = false := by
  intro raws
  induction raws with
  | nil => simp [parseSteps]
  | cons p rest ih =>
    constructor
    · intro ⟨s, hs⟩
      unfold parseSteps at hs
      by_cases h : strFalsy p.2.agent
      · simp [h] at hs
      · intro q hq
        rcases List.mem_cons.1 hq with hq1 | hq2
        · subst hq1; simpa using h
        · rcases hrest : parseSteps rest with e | tail
          · rw [if_neg h, hrest] at hs; cases hs
          · exact ih.1 ⟨tail, hrest⟩ q hq2
    · intro h
      have h1 : strFalsy p.2.agent = false := h p (List.mem_cons_self p rest)
      obtain ⟨tail, htail⟩ := ih.2 (fun q hq => h q (List.mem_cons_of_mem p hq))
      unfold parseSteps
      rw [if_neg (by simp [h1]), htail]
      exact ⟨_, rfl⟩

/-- A successfully parsed steps map binds exactly the raw step names, in
order. -/
theorem parseSteps_keys : ∀ (raws : List (String × RawStep)) (s : List (String × StepDefinition)),
    parseSteps raws = .ok s → dictKeys s = raws.map (·.1) := by
  intro raws
  induction raws with
  | nil => intro s hs; cases hs; rfl
  | cons p rest ih =>
    intro s hs
    unfold parseSteps at hs
    by_cases h : strFalsy p.2.agent
    · simp [h] at hs
    · rw [if_neg h] at hs
      rcases hrest : parseSteps rest with e | tail
      · rw [hrest] at hs; cases hs
      · rw [hrest] at hs
        cases hs
        have := ih tail hrest
        simp only [dictKeys, List.map_cons] at this ⊢
        rw [this]

/-- C9 (amended): `Manifest._parse` succeeds exactly when the manifest name
is truthy, an entry step name is given, the steps map is non-empty, every
step has a truthy agent binding, and the entry step is one of the step
names; edges are passed through verbatim with no existence check, so a
manifest whose edges reference undefined steps still loads. -/
theorem c9_manifest_validation (raw : RawManifest) :
    ((∃ m, manifest_parse raw = .ok m) ↔
      (strFalsy raw.name = false ∧ strFalsy raw.entry_step = false ∧
       raw.steps ≠ [] ∧ (∀ p ∈ raw.steps, strFalsy p.2.agent = false) ∧
       raw.entry_step.getD "" ∈ raw.steps.map (·.1)))
    ∧ (∀ m, manifest_parse raw = .ok m → m.edges = raw.edges.map (fun e =>
        { from_step := e.from_step, to_step := e.to_step,
          condition := e.condition.getD "on_pass" })) := by
  constructor
  · constructor
    · intro ⟨m, hm⟩
      unfold manifest_parse at hm
      by_cases h1 : strFalsy raw.name
      · simp [h1] at hm
      · by_cases h2 : strFalsy raw.entry_step
        · simp [h1, h2] at hm
        · by_cases h3 : raw.steps.isEmpty
          · simp [h1, h2, h3] at hm
          · rw [if_neg h1, if_neg h2, if_neg (by simp [h3])] at hm
            rcases hsteps : parseSteps raw.steps with e | steps
            · simp [hsteps] at hm
            · simp only [hsteps] at hm
              by_cases h5 : (dictGet steps (raw.entry_step.getD "")).isNone
              · simp [h5] at hm
              · refine ⟨by simpa using h1, by simpa using h2,
                  by simpa [List.isEmpty_iff] using h3,
                  parseSteps_ok_iff raw.steps |>.1 ⟨steps, hsteps⟩, ?_⟩
                rw [← parseSteps_keys raw.steps steps hsteps]
                have := (not_iff_not.2 (dictGet_isNone_iff steps (raw.entry_step.getD ""))).1
                  (by simpa using h5)
                simpa using this
    · intro ⟨h1, h2, h3, h4, h5⟩
      obtain ⟨steps, hsteps⟩ := (parseSteps_ok_iff raw.steps).2 h4
      unfold manifest_parse
      rw [if_neg (by simp [h1]), if_neg (by simp [h2]),
          if_neg (by simp [List.isEmpty_iff, h3])]
      simp only [hsteps]
      have hmem : raw.entry_step.getD "" ∈ dictKeys steps := by
        rw [parseSteps_keys raw.steps steps hsteps]; exact h5
      have hget : ¬ (dictGet steps (raw.entry_step.getD "")).isNone := by
        rw [dictGet_isNone_iff]
        simpa using hmem
      rw [if_neg (by simpa using hget)]
      exact ⟨_, rfl⟩
  · intro m hm
    unfold manifest_parse at hm
    by_cases h1 : strFalsy raw.name
    · simp [h1] at hm
    · by_cases h2 : strFalsy raw.entry_step
      · simp [h1, h2] at hm
      · by_cases h3 : raw.steps.isEmpty
        · simp [h1, h2, h3] at hm
        · rw [if_neg h1, if_neg h2, if_neg (by simp [h3])] at hm
          rcases hsteps : parseSteps raw.steps with e | steps
          · simp [hsteps] at hm
          · simp only [hsteps] at hm
            by_cases h5 : (dictGet steps (raw.entry_step.getD "")).isNone
            · simp [h5] at hm
            · rw [if_neg (by simpa using h5)] at hm
              cases hm
              rfl

/-- C9 counterexample: none of the four failure conditions the claim lists
holds for `c9raw`, yet parsing fails (on the `name` check the claim
omits). -/
theorem c9_counterexample :
    manifest_parse c9raw = .error "Manifest must have a 'name' field" ∧
    strFalsy c9raw.entry_step = false ∧ c9raw.steps ≠ [] ∧
    (∀ p ∈ c9raw.steps, strFalsy p.2.agent = false) ∧
    c9raw.entry_step.getD "" ∈ c9raw.steps.map (·.1) :=
  ⟨rfl, by decide, by decide, by decide, by decide⟩

/-- C9 witness: the validation characterisation applied at a concrete
manifest whose edge targets an undefined step; it loads, and the dangling
edge is kept verbatim. -/
theorem c9_witness :
    ∃ m, manifest_parse c9rawGood = .ok m ∧
      m.edges = [{ from_step := "a", to_step := "ghost", condition := "on_pass" }] := by
  obtain ⟨m, hm⟩ := (c9_manifest_validation c9rawGood).1.mpr
    ⟨by decide, by decide, by decide, by decide, by decide⟩
  refine ⟨m, hm, ?_⟩
  rw [(c9_manifest_validation c9rawGood).2 m hm]
  rfl

/-- A successful lookup pairs the key with a value bound in the list. -/
theorem dictGet_mem {α : Type} :
    ∀ (d : List (String × α)) (k : String) (v : α), dictGet d k = some v → (k, v) ∈ d := by
  intro d k v
  induction d with
  | nil => intro h; cases h
  | cons p rest ih =>
    intro h
    unfold dictGet at h
    by_cases he : p.1 = k
    · rw [if_pos he] at h
      cases h
      subst he
      exact List.mem_cons_self p rest
    · rw [if_neg he] at h
      exact List.mem_cons_of_mem p (ih h)

/-- `intake_pre` never mutates the context it reads. -/
theorem intake_pre_pure : ∀ ctx r c', intake_pre ctx = .ok (r, c') → c' = ctx := by
  intro ctx r c' h
  unfold intake_pre at h
  dsimp only at h
  split at h <;> (cases h; rfl)

/-- `intake_post` never mutates the context it reads. -/
theorem intake_post_pure : ∀ ctx r c', intake_post ctx = .ok (r, c') → c' = ctx := by
  intro ctx r c' h
  unfold intake_post at h
  dsimp only at h
  split at h
  · split at h <;> (cases h; rfl)
  · cases h; rfl

/-- `extract_pre` never mutates the context it reads. -/
theorem extract_pre_pure : ∀ ctx r c', extract_pre ctx = .ok (r, c') → c' = ctx := by
  intro ctx r c' h
  unfold extract_pre at h
  dsimp only at h
  split at h
  · cases h; rfl
  · split at h
    · cases h; rfl
    · split at h
      · cases h
      · cases h; rfl

/-- `extract_post` never mutates the context it reads. -/
theorem extract_post_pure : ∀ ctx r c', extract_post ctx = .ok (r, c') → c' = ctx := by
  intro ctx r c' h
  unfold extract_post at h
  dsimp only at h
  split at h
  · split at h
    · cases h; rfl
    · split at h
      · cases h
      · split at h <;> (cases h; rfl)
  · cases h; rfl

/-- `write_pre` never mutates the context it reads. -/
theorem write_pre_pure : ∀ ctx r c', write_pre ctx = .ok (r, c') → c' = ctx := by
  intro ctx r c' h
  unfold write_pre at h
  dsimp only at h
  split at h
  · cases h; rfl
  · split at h
    · cases h; rfl
    · split at h
      · cases h
      · cases h; rfl

/-- `write_post` never mutates the context it reads. -/
theorem write_post_pure : ∀ ctx r c', write_post ctx = .ok (r, c') → c' = ctx := by
  intro ctx r c' h
  unfold write_post at h
  dsimp only at h
  split at h
  · split at h <;> (cases h; rfl)
  · cases h; rfl

/-- `global_invariant` never mutates the context it reads. -/
theorem global_invariant_pure : ∀ ctx r c', global_invariant ctx = .ok (r, c') → c' = ctx := by
  intro ctx r c' h
  unfold global_invariant at h
  split at h <;> (cases h; rfl)

/-- `pipeline_progress` never mutates the context it reads. -/
theorem pipeline_progress_pure : ∀ ctx r c', pipeline_progress ctx = .ok (r, c') → c' = ctx := by
  intro ctx r c' h
  unfold pipeline_progress at h
  cases h
  rfl

/-- Every spec registered by `core/specs.py` returns its context
unchanged. -/
theorem spec_registry_pure :
    ∀ p ∈ SPEC_REGISTRY, ∀ ctx r c', p.2 ctx = .ok (r, c') → c' = ctx := by
  intro p hp
  simp only [SPEC_REGISTRY, List.mem_cons, List.not_mem_nil, or_false] at hp
  rcases hp with h | h | h | h | h | h | h | h <;> subst h
  · exact intake_pre_pure
  · exact intake_post_pure
  · exact extract_pre_pure
  · exact extract_post_pure
  · exact write_pre_pure
  · exact write_post_pure
  · exact global_invariant_pure
  · exact pipeline_progress_pure

/-- C8: evaluating registered spec names yields one result per name in the
same order (index-wise each result is the registered function's output),
leaves the context unchanged, and re-evaluating against the resulting
context reproduces the identical results. -/
theorem c8_evaluate_specs_contract :
    ∀ (names : List String) (ctx : Context) (rs : List SpecResult) (ctx' : Context),
    evaluate_specs SPEC_REGISTRY names ctx = (.ok rs, ctx') →
    ctx' = ctx ∧ rs.length = names.length ∧
    evaluate_specs SPEC_REGISTRY names ctx' = (.ok rs, ctx') ∧
    (∀ i (h1 : i < names.length) (h2 : i < rs.length),
      ∃ f, dictGet SPEC_REGISTRY (names.get ⟨i, h1⟩) = some f ∧
        f ctx = .ok (rs.get ⟨i, h2⟩, ctx)) := by
  intro names
  induction names with
  | nil =>
    intro ctx rs ctx' h
    unfold evaluate_specs at h
    cases h
    exact ⟨rfl, rfl, rfl, fun i h1 _ => absurd h1 (Nat.not_lt_zero i)⟩
  | cons n ns ih =>
    intro ctx rs ctx' h
    unfold evaluate_specs at h
    rcases hg : dictGet SPEC_REGISTRY n with _ | f
    · rw [show get_spec SPEC_REGISTRY n = .error (.other (pyReprStr
        ("Unknown spec: '" ++ n ++ "'. Available: " ++ pyReprStrList (dictKeys SPEC_REGISTRY))))
        from by unfold get_spec; rw [hg]] at h
      simp at h
    · rw [show get_spec SPEC_REGISTRY n = .ok f from by unfold get_spec; rw [hg]] at h
      dsimp only at h
      rcases hf : f ctx with e | rc
      · simp [hf] at h
      · rcases rc with ⟨r, ctx1⟩
        simp only [hf] at h
        have hctx1 : ctx1 = ctx :=
          spec_registry_pure (n, f) (dictGet_mem SPEC_REGISTRY n f hg) ctx r ctx1 hf
        subst hctx1
        rcases hrest : evaluate_specs SPEC_REGISTRY ns ctx1 with ⟨res, ctx2⟩
        rcases res with e | rs'
        · simp [hrest] at h
        · simp only [hrest] at h
          simp only [Prod.mk.injEq, Except.ok.injEq] at h
          obtain ⟨hrs, hctx'⟩ := h
          subst hrs
          subst hctx'
          obtain ⟨hc2, hlen, hidem, hidx⟩ := ih ctx1 rs' ctx2 hrest
          subst hc2
          refine ⟨rfl, by simpa using hlen, ?_, ?_⟩
          · unfold evaluate_specs
            rw [show get_spec SPEC_REGISTRY n = .ok f from by unfold get_spec; rw [hg]]
            dsimp only
            rw [hf]
            dsimp only
            rw [hrest]
          · intro i h1 h2
            cases i with
            | zero => exact ⟨f, hg, hf⟩
            | succ j =>
              obtain ⟨g, hg2, hg3⟩ := hidx j (by simpa using h1) (by simpa using h2)
              exact ⟨g, hg2, hg3⟩

/-- C8 witness: the evaluator contract applied to a concrete evaluation of
two registered specs. -/
theorem c8_witness :
    evaluate_specs SPEC_REGISTRY ["intake_pre", "pipeline_progress"] c8wCtx =
      (.ok c8wRs, c8wCtx) ∧
    (c8wCtx = c8wCtx ∧ c8wRs.length = 2 ∧
     evaluate_specs SPEC_REGISTRY ["intake_pre", "pipeline_progress"] c8wCtx =
       (.ok c8wRs, c8wCtx) ∧
     (∀ i (h1 : i < (["intake_pre", "pipeline_progress"] : List String).length)
        (h2 : i < c8wRs.length),
       ∃ f, dictGet SPEC_REGISTRY ((["intake_pre", "pipeline_progress"] : List String).get ⟨i, h1⟩) = some f ∧
         f c8wCtx = .ok (c8wRs.get ⟨i, h2⟩, c8wCtx))) :=
  ⟨rfl, c8_evaluate_specs_contract ["intake_pre", "pipeline_progress"] c8wCtx c8wRs c8wCtx rfl⟩

/-- C6: when any pre-spec fails, the attempt comes back `Failed` with the
`Pre-spec failed:` message joining exactly the failing results, the `after`
snapshot stays empty, no fingerprint is recorded, exactly one attempt is
produced, and the result does not depend on the agent registry at all (the
agent is never consulted). -/
theorem c6_pre_spec_failure (env : Env) (ctx : Context) (sd : StepDefinition)
    (attempt : Nat) (seen : Seen) (rs : List SpecResult) (ctx1 : Context)
    (hpre : evaluate_specs env.specs sd.pre_specs ctx = (.ok rs, ctx1))
    (hfail : all_passed rs = false) :
    ∃ att, execStepAttempt env ctx sd attempt seen = .ok (att, ctx1, seen) ∧
      att.status = .failed ∧
      att.error = some ("Pre-spec failed: " ++
        failedMsg (rs.filter (fun r => !r.passed))) ∧
      att.context_after = [] ∧ att.fingerprint = "" ∧ att.pre_results = rs ∧
      (∀ agents2, execStepAttempt { env with agents := agents2 } ctx sd attempt seen =
        execStepAttempt env ctx sd attempt seen) := by
  have hbody : ∀ ag : List (String × (Context → Except PyErr Context)),
      execStepAttempt { specs := env.specs, agents := ag } ctx sd attempt seen =
        .ok (failAttempt
              { step_id := sd.name, agent_id := sd.agent_name, attempt := attempt,
                status := .running, context_before := ctx.snapshot_data,
                pre_results := rs }
              ("Pre-spec failed: " ++ failedMsg (rs.filter (fun r => !r.passed))),
            ctx1, seen) := by
    intro ag
    unfold execStepAttempt
    simp only [hpre, hfail]
    rfl
  refine ⟨failAttempt
      { step_id := sd.name, agent_id := sd.agent_name, attempt := attempt,
        status := .running, context_before := ctx.snapshot_data, pre_results := rs }
      ("Pre-spec failed: " ++ failedMsg (rs.filter (fun r => !r.passed))),
    ?_, rfl, rfl, rfl, rfl, rfl, ?_⟩
  · exact hbody env.agents
  · intro agents2
    exact (hbody agents2).trans (hbody env.agents).symm

/-- C6 witness: the pre-spec-failure contract applied to a concrete attempt
whose `intake_pre` fails, under two different agent registries. -/
theorem c6_witness :
    evaluate_specs mockEnv.specs c2Step.pre_specs c2Ctx =
      (.ok c2Att.pre_results, c2Ctx) ∧
    all_passed c2Att.pre_results = false ∧
    ∃ att, execStepAttempt mockEnv c2Ctx c2Step 1 [] = .ok (att, c2Ctx, []) ∧
      att.status = .failed ∧
      att.error = some ("Pre-spec failed: " ++
        failedMsg (c2Att.pre_results.filter (fun r => !r.passed))) ∧
      att.context_after = [] ∧ att.fingerprint = "" ∧
      att.pre_results = c2Att.pre_results ∧
      (∀ agents2, execStepAttempt { mockEnv with agents := agents2 } c2Ctx c2Step 1 [] =
        execStepAttempt mockEnv c2Ctx c2Step 1 []) :=
  ⟨rfl, rfl, c6_pre_spec_failure mockEnv c2Ctx c2Step 1 [] c2Att.pre_results c2Ctx rfl rfl⟩

/-- C10 (amended): whenever the run loop is entered on a non-empty step
name, other than the terminal sentinel, that is not bound in the manifest's
steps map, the iteration raises the internal `ValueError` and the run
record comes back `Failed` with the message naming the missing step. -/
theorem c10_dangling_step (env : Env) (m : Manifest) (fuel : Nat) (s : String)
    (ctx : Context) (steps : List StepAttempt) (seen : Seen) (completed : Nat)
    (h1 : s ≠ "") (h2 : s ≠ "__end__") (h3 : dictGet m.steps s = none) :
    runLoop env m (fuel + 1) (some s) ctx steps seen completed =
      some (steps, .error (.other ("Step '" ++ s ++ "' not found in manifest"))) ∧
    (m.entry_step = s →
      ∃ r, orchestratorRun env m (fuel + 1) ctx = some r ∧
        r.status = .failed ∧
        r.error = some ("Step '" ++ s ++ "' not found in manifest")) := by
  have hcond : ¬(s = "" ∨ s = "__end__") := by
    intro hc
    rcases hc with hc | hc
    · exact h1 hc
    · exact h2 hc
  have hloop : ∀ (st : List StepAttempt) (sn : Seen) (c : Context) (k : Nat),
      runLoop env m (fuel + 1) (some s) c st sn k =
        some (st, .error (.other ("Step '" ++ s ++ "' not found in manifest"))) := by
    intro st sn c k
    unfold runLoop
    dsimp only
    rw [if_neg hcond]
    simp only [h3]
  refine ⟨hloop steps seen ctx completed, ?_⟩
  intro hentry
  unfold orchestratorRun
  rw [hentry, hloop [] [] ctx 0]
  exact ⟨_, rfl, rfl, rfl⟩

/-- C10 counterexample: the router hands back the empty string (a dangling
edge target other than the terminal sentinel), yet the run ends as a normal
completion with no error, because the while condition treats the falsy
empty string exactly like the absence of an edge. -/
theorem c10_counterexample :
    next_step c10Manifest.edges "a" true = some "" ∧
    dictGet c10Manifest.steps "" = none ∧
    ∃ r, orchestratorRun mockEnv c10Manifest 5 c2Ctx = some r ∧
      r.status = .completed ∧ r.error = none :=
  ⟨rfl, rfl, _, rfl, rfl, rfl⟩

/-- C10 witness: the dangling-step contract applied to a manifest whose
entry step is unbound. -/
theorem c10_witness :
    (("ghost" : String) ≠ "" ∧ ("ghost" : String) ≠ "__end__" ∧
     dictGet c10wManifest.steps "ghost" = none ∧ c10wManifest.entry_step = "ghost") ∧
    (∃ r, orchestratorRun mockEnv c10wManifest 3 c2Ctx = some r ∧
      r.status = .failed ∧ r.error = some "Step 'ghost' not found in manifest") :=
  ⟨⟨by decide, by decide, rfl, rfl⟩,
   (c10_dangling_step mockEnv c10wManifest 2 "ghost" c2Ctx [] [] 0
      (by decide) (by decide) rfl).2 rfl⟩

/-- C4: with the `max_total_steps` key present in the run's budgets, an
iteration of the run loop on a defined step raises
`BudgetExhaustedError("max_total_steps")` before any attempt exactly when
the passed-step count has reached the budget, and proceeds into the attempt
loop otherwise; concretely, `max_total_steps = 1` on the 3-step linear
graph yields one passed `intake` attempt, no `extract` attempt, and a
`Failed` record carrying the budget-exhaustion message. -/
theorem c4_budget_enforcement (env : Env) (m : Manifest) (fuel : Nat) (s : String)
    (sd : StepDefinition) (ctx : Context) (steps : List StepAttempt) (seen : Seen)
    (completed : Nat) (b : Int)
    (h1 : s ≠ "") (h2 : s ≠ "__end__") (hsd : dictGet m.steps s = some sd)
    (hb : dictGet ctx.budgets "max_total_steps" = some b) :
    ((completed : Int) ≥ b →
      runLoop env m (fuel + 1) (some s) ctx steps seen completed =
        some (steps, .error (.budgetExhausted "max_total_steps" b))) ∧
    ((completed : Int) < b →
      runLoop env m (fuel + 1) (some s) ctx steps seen completed =
        (match attemptLoop env sd sd.retry.max_attempts 1 ctx steps seen with
         | (steps1, .error e) => some (steps1, .error e)
         | (steps1, .ok (ctx1, seen1, passed)) =>
           runLoop env m fuel (next_step m.edges s passed) ctx1 steps1 seen1
             (if passed then completed + 1 else completed))) ∧
    (∃ r, orchestratorRun mockEnv happyManifest 10 c4Ctx = some r ∧
      r.status = .failed ∧
      r.error = some "Budget 'max_total_steps' exhausted (limit: 1)" ∧
      r.steps.map (fun a => (a.step_id, a.status)) = [("intake", .passed)]) := by
  have hcond : ¬(s = "" ∨ s = "__end__") := by
    intro hc
    rcases hc with hc | hc
    · exact h1 hc
    · exact h2 hc
  refine ⟨?_, ?_, ⟨_, rfl, rfl, rfl, rfl⟩⟩
  · intro hge
    unfold runLoop
    dsimp only
    rw [if_neg hcond]
    simp only [hsd, hb]
    rw [if_pos (by simpa using hge)]
  · intro hlt
    rw [runLoop]
    rw [if_neg hcond]
    simp only [hsd, hb]
    rw [if_neg (by simpa using Int.not_le.mpr hlt)]

/-- C4 witness: the budget check applied on arrival at `extract` with one
passed step against a budget of one. -/
theorem c4_witness :
    (("extract" : String) ≠ "" ∧
     dictGet happyManifest.steps "extract" = some happyExtract ∧
     dictGet c4Ctx.budgets "max_total_steps" = some 1 ∧ ((1 : Nat) : Int) ≥ 1) ∧
    runLoop mockEnv happyManifest 10 (some "extract") c4Ctx [] [] 1 =
      some ([], .error (.budgetExhausted "max_total_steps" 1)) :=
  ⟨⟨by decide, rfl, rfl, by decide⟩,
   (c4_budget_enforcement mockEnv happyManifest 9 "extract" happyExtract c4Ctx [] [] 1 1
      (by decide) (by decide) rfl rfl).1 (by decide)⟩

/-- A string starting with a non-empty prefix is non-empty. -/
theorem append_ne_empty_left (a b : String) (ha : a ≠ "") : a ++ b ≠ "" := by
  intro h
  apply ha
  have hlen := congrArg String.length h
  rw [String.length_append] at hlen
  have h0 : ("" : String).length = 0 := rfl
  have ha0 : a.length = 0 := by omega
  cases a with
  | mk da =>
    have hda : da = [] := List.eq_nil_of_length_eq_zero ha0
    rw [hda]

/-- The two fatal exceptions always carry a non-empty message. -/
theorem pyErrStr_fatal_ne (e : PyErr) (h : e.isFatal = true) : pyErrStr e ≠ "" := by
  cases e with
  | loopDetected s fp =>
    unfold pyErrStr
    exact append_ne_empty_left _ _ (append_ne_empty_left _ _
      (append_ne_empty_left "Loop detected: step '" s (by decide)))
  | budgetExhausted n l =>
    unfold pyErrStr
    exact append_ne_empty_left _ _ (append_ne_empty_left _ _
      (append_ne_empty_left _ _ (append_ne_empty_left "Budget '" n (by decide))))
  | other m => simp [PyErr.isFatal] at h

/-- `_execute_step_attempt` only lets the fatal exceptions escape. -/
theorem execStepAttempt_error_fatal (env : Env) (ctx : Context) (sd : StepDefinition)
    (attempt : Nat) (seen : Seen) (e : PyErr)
    (h : execStepAttempt env ctx sd attempt seen = .error e) : e.isFatal = true := by
  unfold execStepAttempt at h
  dsimp only at h
  repeat' split at h
  all_goals first
    | (cases h; rfl)
    | (cases h; assumption)
    | cases h

/-- The retry loop only lets fatal exceptions escape. -/
theorem attemptLoop_error_fatal (env : Env) (sd : StepDefinition) :
    ∀ (rem attempt : Nat) (ctx : Context) (steps steps1 : List StepAttempt)
      (seen : Seen) (e : PyErr),
    attemptLoop env sd rem attempt ctx steps seen = (steps1, .error e) →
    e.isFatal = true := by
  intro rem
  induction rem with
  | zero => intro attempt ctx steps steps1 seen e h; cases h
  | succ n ih =>
    intro attempt ctx steps steps1 seen e h
    unfold attemptLoop at h
    rcases hx : execStepAttempt env ctx sd attempt seen with e' | ⟨att, ctx1, seen1⟩
    · rw [hx] at h
      cases h
      exact execStepAttempt_error_fatal env ctx sd attempt seen _ hx
    · rw [hx] at h
      dsimp only at h
      by_cases hp : att.status = .passed
      · rw [if_pos hp] at h; cases h
      · rw [if_neg hp] at h
        by_cases hlt : attempt < sd.retry.max_attempts
        · rw [if_pos hlt] at h
          exact ih (attempt + 1) _ _ _ _ _ h
        · rw [if_neg hlt] at h; cases h

/-- Every exception that escapes the run loop carries a non-empty
`str(e)`. -/
theorem runLoop_error_nonempty (env : Env) (m : Manifest) :
    ∀ (fuel : Nat) (cur : Option String) (ctx : Context) (steps : List StepAttempt)
      (seen : Seen) (completed : Nat) (stepsR : List StepAttempt) (e : PyErr),
    runLoop env m fuel cur ctx steps seen completed = some (stepsR, .error e) →
    pyErrStr e ≠ "" := by
  intro fuel
  induction fuel with
  | zero =>
    intro cur ctx steps seen completed stepsR e h
    rcases cur with _ | s
    · cases h
    · unfold runLoop at h
      dsimp only at h
      by_cases ht : s = "" ∨ s = "__end__"
      · rw [if_pos ht] at h; cases h
      · rw [if_neg ht] at h; cases h
  | succ n ih =>
    intro cur ctx steps seen completed stepsR e h
    rcases cur with _ | s
    · cases h
    · unfold runLoop at h
      dsimp only at h
      by_cases ht : s = "" ∨ s = "__end__"
      · rw [if_pos ht] at h; cases h
      · rw [if_neg ht] at h
        rcases hsd : dictGet m.steps s with _ | sd
        · simp only [hsd] at h
          cases h
          exact append_ne_empty_left _ _
            (append_ne_empty_left "Step '" s (by decide))
        · simp only [hsd] at h
          by_cases hbudget : (completed : Int) ≥ (dictGet ctx.budgets "max_total_steps").getD 20
          · rw [if_pos hbudget] at h
            cases h
            rcases hb : dictGet ctx.budgets "max_total_steps" with _ | b
            · simp only [hb]
              unfold pyErrStr
              decide
            · simp only [hb]
              unfold pyErrStr
              exact append_ne_empty_left _ _ (append_ne_empty_left _ _
                (append_ne_empty_left _ _ (by decide)))
          · rw [if_neg hbudget] at h
            rcases hal : attemptLoop env sd sd.retry.max_attempts 1 ctx steps seen
              with ⟨steps1, res⟩
            rcases res with e' | ⟨ctx1, seen1, passed⟩
            · rw [hal] at h
              cases h
              exact pyErrStr_fatal_ne _ (attemptLoop_error_fatal env sd _ _ _ _ _ _ _ hal)
            · rw [hal] at h
              dsimp only at h
              exact ih _ _ _ _ _ _ _ h

/-- C2 (amended): whenever `Orchestrator.run` terminates it returns a
`RunRecord` with a terminal status, and on failure the record carries a
non-empty error string; no exception escapes — but termination itself is
not guaranteed (see the counterexample: the step budget counts only passed
steps, so a cycle of failing steps loops forever). -/
theorem c2_run_terminal (env : Env) (m : Manifest) (fuel : Nat) (ctx : Context)
    (r : RunRecord) (h : orchestratorRun env m fuel ctx = some r) :
    (r.status = .completed ∨ r.status = .failed) ∧
    (r.status = .failed → ∃ msg, r.error = some msg ∧ msg ≠ "") := by
  unfold orchestratorRun at h
  rcases hrl : runLoop env m fuel (some m.entry_step) ctx [] [] 0 with _ | ⟨stepsR, res⟩
  · rw [hrl] at h; cases h
  · rcases res with e | u
    · rw [hrl] at h
      cases h
      exact ⟨Or.inr rfl, fun _ =>
        ⟨pyErrStr e, rfl, runLoop_error_nonempty env m fuel _ ctx [] [] 0 stepsR e hrl⟩⟩
    · rw [hrl] at h
      cases u
      cases h
      exact ⟨Or.inl rfl, fun hc => by cases hc⟩

/-- C2 counterexample: a run on a cyclic on-fail graph with an
always-failing pre-spec never terminates — for every fuel bound the loop is
still running — so `Orchestrator.run` does not return a `RunRecord` for
every initial context. -/
theorem c2_counterexample : c2RunDiverges := by
  have key : ∀ (fuel : Nat) (steps : List StepAttempt),
      runLoop mockEnv c2Manifest fuel (some "a") c2Ctx steps [] 0 = none := by
    intro fuel
    induction fuel with
    | zero => intro steps; rfl
    | succ n ih =>
      intro steps
      have hstep : runLoop mockEnv c2Manifest (n + 1) (some "a") c2Ctx steps [] 0 =
          runLoop mockEnv c2Manifest n (some "a") c2Ctx (steps ++ [c2Att]) [] 0 := rfl
      rw [hstep]
      exact ih (steps ++ [c2Att])
  intro fuel
  unfold orchestratorRun
  rw [show c2Manifest.entry_step = "a" from rfl, key fuel []]

/-- C2 witness: the terminal-status contract applied to a concrete failing
run. -/
theorem c2_witness :
    orchestratorRun mockEnv c10wManifest 3 c2Ctx = some c2wRec ∧
    ((c2wRec.status = .completed ∨ c2wRec.status = .failed) ∧
     (c2wRec.status = .failed → ∃ msg, c2wRec.error = some msg ∧ msg ≠ "")) :=
  ⟨rfl, c2_run_terminal mockEnv c10wManifest 3 c2Ctx c2wRec rfl⟩

/-- Every attempt record returned by `_execute_step_attempt` carries the
step's name, agent and attempt number. -/
theorem execStepAttempt_fields (env : Env) (ctx : Context) (sd : StepDefinition)
    (attempt : Nat) (seen : Seen) (att : StepAttempt) (c' : Context) (s' : Seen)
    (h : execStepAttempt env ctx sd attempt seen = .ok (att, c', s')) :
    att.step_id = sd.name ∧ att.agent_id = sd.agent_name ∧ att.attempt = attempt := by
  unfold execStepAttempt at h
  dsimp only at h
  repeat' split at h
  all_goals first
    | (cases h; exact ⟨rfl, rfl, rfl⟩)
    | cases h

/-- One failing attempt with retries remaining: the loop enriches the
context and recurses. -/
theorem attemptLoop_step_fail (env : Env) (sd : StepDefinition) (rem attempt : Nat)
    (c : Context) (st : List StepAttempt) (sn : Seen) (att : StepAttempt)
    (c1 : Context) (sn1 : Seen)
    (hx : execStepAttempt env c sd attempt sn = .ok (att, c1, sn1))
    (hs : ¬ att.status = .passed) (hlt : attempt < sd.retry.max_attempts) :
    attemptLoop env sd (rem + 1) attempt c st sn =
      attemptLoop env sd rem (attempt + 1)
        (enrichAfterFailure c1 sd.name att.error attempt) (st ++ [att]) sn1 := by
  conv_lhs => unfold attemptLoop
  rw [hx]
  dsimp only
  rw [if_neg hs, if_pos hlt]

/-- One failing attempt with no retries remaining: the loop reports a
failed step. -/
theorem attemptLoop_step_last (env : Env) (sd : StepDefinition) (rem attempt : Nat)
    (c : Context) (st : List StepAttempt) (sn : Seen) (att : StepAttempt)
    (c1 : Context) (sn1 : Seen)
    (hx : execStepAttempt env c sd attempt sn = .ok (att, c1, sn1))
    (hs : ¬ att.status = .passed) (hge : ¬ attempt < sd.retry.max_attempts) :
    attemptLoop env sd (rem + 1) attempt c st sn = (st ++ [att], .ok (c1, sn1, false)) := by
  conv_lhs => unfold attemptLoop
  rw [hx]
  dsimp only
  rw [if_neg hs, if_neg hge]

/-- C1 (amended): a step with two attempts whose every attempt comes back
`Failed` (in particular the agent never satisfies the post-specs and loop
detection never fires), with the budget not yet reached and no on-fail or
always edge leaving the step, contributes exactly two `Failed` attempts
numbered 1 and 2 and nothing after them; when the step is the entry step,
the whole run returns a record holding exactly those two attempts whose
final status is `Completed` — not `Failed` as the claim stated. -/
theorem c1_retry_exhaustion (env : Env) (m : Manifest) (fuel : Nat) (ctx : Context)
    (steps : List StepAttempt) (seen : Seen) (completed : Nat) (s : String)
    (sd : StepDefinition)
    (h1 : dictGet m.steps s = some sd)
    (h2 : sd.retry.max_attempts = 2)
    (h3 : s ≠ "") (h4 : s ≠ "__end__")
    (h5 : ¬ ((completed : Int) ≥ (dictGet ctx.budgets "max_total_steps").getD 20))
    (hfail : ∀ (c : Context) (a : Nat) (sn : Seen), ∃ att c' sn',
      execStepAttempt env c sd a sn = .ok (att, c', sn') ∧ att.status = .failed)
    (h6 : next_step m.edges s false = none) :
    (∃ a1 a2, runLoop env m (fuel + 1) (some s) ctx steps seen completed =
        some (steps ++ [a1, a2], .ok ()) ∧
      a1.status = .failed ∧ a2.status = .failed ∧
      a1.step_id = sd.name ∧ a2.step_id = sd.name ∧ a1.attempt = 1 ∧ a2.attempt = 2) ∧
    (m.entry_step = s →
      ∃ r b1 b2, orchestratorRun env m (fuel + 1) ctx = some r ∧
        r.status = .completed ∧ r.steps = [b1, b2] ∧
        b1.status = .failed ∧ b2.status = .failed ∧
        b1.step_id = sd.name ∧ b2.step_id = sd.name ∧ b1.attempt = 1 ∧ b2.attempt = 2) := by
  have hcond : ¬(s = "" ∨ s = "__end__") := by
    intro hc
    rcases hc with hc | hc
    · exact h3 hc
    · exact h4 hc
  have hAL : ∀ (c : Context) (st : List StepAttempt) (sn : Seen),
      ∃ a1 a2 c2 sn2, attemptLoop env sd sd.retry.max_attempts 1 c st sn =
          (st ++ [a1, a2], .ok (c2, sn2, false)) ∧
        a1.status = .failed ∧ a2.status = .failed ∧
        a1.step_id = sd.name ∧ a2.step_id = sd.name ∧ a1.attempt = 1 ∧ a2.attempt = 2 := by
    intro c st sn
    obtain ⟨a1, c1, sn1, hx1, hs1⟩ := hfail c 1 sn
    obtain ⟨a2, c2, sn2, hx2, hs2⟩ :=
      hfail (enrichAfterFailure c1 sd.name a1.error 1) 2 sn1
    obtain ⟨hid1, _, hat1⟩ := execStepAttempt_fields env c sd 1 sn a1 c1 sn1 hx1
    obtain ⟨hid2, _, hat2⟩ := execStepAttempt_fields env _ sd 2 sn1 a2 c2 sn2 hx2
    have hns1 : ¬ a1.status = .passed := by rw [hs1]; decide
    have hns2 : ¬ a2.status = .passed := by rw [hs2]; decide
    have hlt1 : 1 < sd.retry.max_attempts := by rw [h2]; decide
    have hge2 : ¬ 2 < sd.retry.max_attempts := by rw [h2]; decide
    refine ⟨a1, a2, c2, sn2, ?_, hs1, hs2, hid1, hid2, hat1, hat2⟩
    calc attemptLoop env sd sd.retry.max_attempts 1 c st sn
        = attemptLoop env sd 2 1 c st sn := by rw [h2]
      _ = attemptLoop env sd 1 2
            (enrichAfterFailure c1 sd.name a1.error 1) (st ++ [a1]) sn1 :=
          attemptLoop_step_fail env sd 1 1 c st sn a1 c1 sn1 hx1 hns1 hlt1
      _ = ((st ++ [a1]) ++ [a2], .ok (c2, sn2, false)) :=
          attemptLoop_step_last env sd 0 2 _ (st ++ [a1]) sn1 a2 c2 sn2 hx2 hns2 hge2
      _ = (st ++ [a1, a2], .ok (c2, sn2, false)) := by
          rw [List.append_assoc]
          rfl
  have hrun : ∀ (st : List StepAttempt) (sn : Seen) (k : Nat),
      ¬((k : Int) ≥ (dictGet ctx.budgets "max_total_steps").getD 20) →
      ∃ a1 a2, runLoop env m (fuel + 1) (some s) ctx st sn k =
          some (st ++ [a1, a2], .ok ()) ∧
        a1.status = .failed ∧ a2.status = .failed ∧
        a1.step_id = sd.name ∧ a2.step_id = sd.name ∧ a1.attempt = 1 ∧ a2.attempt = 2 := by
    intro st sn k hk
    obtain ⟨a1, a2, c2, sn2, hal, p1, p2, p3, p4, p5, p6⟩ := hAL ctx st sn
    refine ⟨a1, a2, ?_, p1, p2, p3, p4, p5, p6⟩
    rw [runLoop]
    rw [if_neg hcond]
    simp only [h1]
    rw [if_neg hk, hal]
    dsimp only
    rw [h6, runLoop]
  refine ⟨hrun steps seen completed h5, ?_⟩
  intro hentry
  have h50 : ¬ ((0 : Int) ≥ (dictGet ctx.budgets "max_total_steps").getD 20) := by
    intro h0
    apply h5
    have hnn : (0 : Int) ≤ (completed : Int) := Int.ofNat_nonneg completed
    omega
  obtain ⟨b1, b2, hrl, p1, p2, p3, p4, p5, p6⟩ := hrun [] [] 0 h50
  refine ⟨{ run_id := ctx.run_id, manifest_name := m.name, status := .completed,
            steps := [b1, b2], error := none,
            input_folder := (dictGet ctx.data "input_folder").getD (.str ""),
            output_folder := (dictGet ctx.data "output_folder").getD (.str ""),
            model_name := (dictGet ctx.config "model").getD (.str "gpt-4o") },
          b1, b2, ?_, rfl, rfl, p1, p2, p3, p4, p5, p6⟩
  unfold orchestratorRun
  rw [hentry, hrl]
  rfl

/-- C1 counterexample: end-to-end scenario B — one passed `intake`
attempt, two failed `extract` attempts, no further attempts — but the final
status is `Completed` with no error, not `Failed`: the orchestrator marks
any exit through "no matching edge" as success, retry exhaustion
included. -/
theorem c1_counterexample :
    (dictGet failingManifest.steps "extract").map (fun sd => sd.retry.max_attempts) =
      some 2 ∧
    next_step failingManifest.edges "extract" false = none ∧
    ∃ r, orchestratorRun mockEnv failingManifest 10 baseCtx = some r ∧
      r.status = .completed ∧ r.error = none ∧
      r.steps.map (fun a => (a.step_id, a.status)) =
        [("intake", .passed), ("extract", .failed), ("extract", .failed)] :=
  ⟨rfl, rfl, _, rfl, rfl, rfl, rfl⟩

/-- C1 witness: the retry-exhaustion contract applied to a two-attempt
step whose every attempt fails (its pre-spec list names an unregistered
spec). -/
theorem c1_witness :
    (dictGet c1wManifest.steps "w" = some c1wStep ∧
     c1wStep.retry.max_attempts = 2 ∧
     next_step c1wManifest.edges "w" false = none ∧
     ¬ ((0 : Int) ≥ (dictGet c2Ctx.budgets "max_total_steps").getD 20)) ∧
    (∃ r b1 b2, orchestratorRun mockEnv c1wManifest 3 c2Ctx = some r ∧
      r.status = .completed ∧ r.steps = [b1, b2] ∧
      b1.status = .failed ∧ b2.status = .failed ∧
      b1.step_id = "w" ∧ b2.step_id = "w" ∧ b1.attempt = 1 ∧ b2.attempt = 2) :=
  ⟨⟨rfl, rfl, rfl, by decide⟩,
   (c1_retry_exhaustion mockEnv c1wManifest 2 c2Ctx [] [] 0 "w" c1wStep rfl rfl
      (by decide) (by decide) (by decide)
      (fun c a sn => ⟨_, _, _, rfl, rfl⟩) rfl).2 rfl⟩

/-- C3 (amended): the loop-detector contract of `_execute_step_attempt`.
After a post-spec failure the attempt's fingerprint is
`compute_fingerprint` of the step name, the data snapshot and the failing
rule ids; a fingerprint already recorded for the step raises
`LoopDetectedError`, an unseen one is appended to the step's memory and the
attempt comes back failed carrying it.  The fingerprint depends on the data
only through its key list up to permutation and on the rule ids up to
permutation — the rule *multiset*, not the rule set, which is where the
claim needed correction.  Pre-spec and invariant-spec failures never record
or check a fingerprint: the memory is returned unchanged and the attempt's
fingerprint stays empty.  At run level, a concrete two-attempt run whose
identical post-spec failures repeat a fingerprint ends `Failed` with the
loop error's message, the aborted second attempt unrecorded. -/
theorem c3_loop_detector (env : Env) (sd : StepDefinition) (attempt : Nat) :
    (∀ (ctx : Context) (seen : Seen) (rs : List SpecResult) (ctx1 : Context)
        (ag : Context → Except PyErr Context) (ctx2 : Context)
        (ps : List SpecResult) (ctx3 : Context),
      evaluate_specs env.specs sd.pre_specs ctx = (.ok rs, ctx1) →
      all_passed rs = true →
      dictGet env.agents sd.agent_name = some ag →
      ag ctx1 = .ok ctx2 →
      evaluate_specs env.specs sd.post_specs ctx2 = (.ok ps, ctx3) →
      all_passed ps = false →
      (compute_fingerprint sd.name ctx3.snapshot_data
          ((ps.filter (fun r => !r.passed)).map (fun r => r.rule_id)) ∈
          (dictGet seen sd.name).getD [] →
        execStepAttempt env ctx sd attempt seen =
          .error (.loopDetected sd.name
            (compute_fingerprint sd.name ctx3.snapshot_data
              ((ps.filter (fun r => !r.passed)).map (fun r => r.rule_id))))) ∧
      (compute_fingerprint sd.name ctx3.snapshot_data
          ((ps.filter (fun r => !r.passed)).map (fun r => r.rule_id)) ∉
          (dictGet seen sd.name).getD [] →
        ∃ att, execStepAttempt env ctx sd attempt seen =
            .ok (att, ctx3,
              dictSet seen sd.name ((dictGet seen sd.name).getD [] ++
                [compute_fingerprint sd.name ctx3.snapshot_data
                  ((ps.filter (fun r => !r.passed)).map (fun r => r.rule_id))])) ∧
          att.status = .failed ∧
          att.fingerprint = compute_fingerprint sd.name ctx3.snapshot_data
            ((ps.filter (fun r => !r.passed)).map (fun r => r.rule_id)))) ∧
    (∀ (d1 d2 : List (String × Value)) (f1 f2 : List String),
      List.Perm (dictKeys d1) (dictKeys d2) → List.Perm f1 f2 →
      compute_fingerprint sd.name d1 f1 = compute_fingerprint sd.name d2 f2) ∧
    (∀ (ctx : Context) (seen : Seen) (rs : List SpecResult) (ctx1 : Context),
      evaluate_specs env.specs sd.pre_specs ctx = (.ok rs, ctx1) →
      all_passed rs = false →
      ∃ att, execStepAttempt env ctx sd attempt seen = .ok (att, ctx1, seen) ∧
        att.fingerprint = "") ∧
    (∀ (ctx : Context) (seen : Seen) (rs : List SpecResult) (ctx1 : Context)
        (ag : Context → Except PyErr Context) (ctx2 : Context)
        (ps : List SpecResult) (ctx3 : Context)
        (iv : List SpecResult) (ctx4 : Context),
      evaluate_specs env.specs sd.pre_specs ctx = (.ok rs, ctx1) →
      all_passed rs = true →
      dictGet env.agents sd.agent_name = some ag →
      ag ctx1 = .ok ctx2 →
      evaluate_specs env.specs sd.post_specs ctx2 = (.ok ps, ctx3) →
      all_passed ps = true →
      evaluate_specs env.specs sd.invariant_specs ctx3 = (.ok iv, ctx4) →
      all_passed iv = false →
      ∃ att, execStepAttempt env ctx sd attempt seen = .ok (att, ctx4, seen) ∧
        att.fingerprint = "") ∧
    (orchestratorRun c3Env c3LoopManifest 5 c3Ctx).map
        (fun r => ((r.status, r.error),
          r.steps.map (fun a => (a.step_id, a.status, a.fingerprint)))) =
      some ((RunStatus.failed,
          some "Loop detected: step 'y' repeated with fingerprint cda1a0d3d86a3800"),
        [("y", StepStatus.failed, "cda1a0d3d86a3800")]) := by
  refine ⟨?_, ?_, ?_, ?_, ?_⟩
  · intro ctx seen rs ctx1 ag ctx2 ps ctx3 hpre hok hag hag2 hpost hfailp
    have he : execStepAttempt env ctx sd attempt seen =
        (if compute_fingerprint sd.name ctx3.snapshot_data
              ((ps.filter (fun r => !r.passed)).map (fun r => r.rule_id)) ∈
              (dictGet seen sd.name).getD [] then
          Except.error (.loopDetected sd.name
            (compute_fingerprint sd.name ctx3.snapshot_data
              ((ps.filter (fun r => !r.passed)).map (fun r => r.rule_id))))
        else
          Except.ok
            ({ failAttempt
                  { step_id := sd.name, agent_id := sd.agent_name,
                    attempt := attempt, status := .running,
                    context_before := ctx.snapshot_data, pre_results := rs,
                    context_after := ctx2.snapshot_data, post_results := ps }
                  ("Post-spec failed: " ++
                    failedMsg (ps.filter (fun r => !r.passed))) with
                fingerprint := compute_fingerprint sd.name ctx3.snapshot_data
                  ((ps.filter (fun r => !r.passed)).map (fun r => r.rule_id)) },
             ctx3,
             dictSet seen sd.name ((dictGet seen sd.name).getD [] ++
               [compute_fingerprint sd.name ctx3.snapshot_data
                 ((ps.filter (fun r => !r.passed)).map (fun r => r.rule_id))]))) := by
      unfold execStepAttempt
      simp only [hpre, hok, hag, hag2, hpost, hfailp]
      rfl
    refine ⟨fun hmem => ?_, fun hmem => ?_⟩
    · rw [he, if_pos hmem]
    · rw [he, if_neg hmem]
      exact ⟨_, rfl, rfl, rfl⟩
  · exact fun d1 d2 f1 f2 hk hf => compute_fingerprint_congr sd.name hk hf
  · intro ctx seen rs ctx1 hpre hfail
    have he : execStepAttempt env ctx sd attempt seen =
        .ok (failAttempt
              { step_id := sd.name, agent_id := sd.agent_name,
                attempt := attempt, status := .running,
                context_before := ctx.snapshot_data, pre_results := rs }
              ("Pre-spec failed: " ++ failedMsg (rs.filter (fun r => !r.passed))),
            ctx1, seen) := by
      unfold execStepAttempt
      simp only [hpre, hfail]
      rfl
    exact ⟨_, he, rfl⟩
  · intro ctx seen rs ctx1 ag ctx2 ps ctx3 iv ctx4 hpre hok hag hag2 hpost hps hinv hfail
    have he : execStepAttempt env ctx sd attempt seen =
        .ok (failAttempt
              { step_id := sd.name, agent_id := sd.agent_name,
                attempt := attempt, status := .running,
                context_before := ctx.snapshot_data, pre_results := rs,
                context_after := ctx2.snapshot_data, post_results := ps,
                invariant_results := iv }
              ("Invariant failed: " ++ failedMsg (iv.filter (fun r => !r.passed))),
            ctx4, seen) := by
      unfold execStepAttempt
      simp only [hpre, hok, hag, hag2, hpost, hps, hinv, hfail]
      rfl
    exact ⟨_, he, rfl⟩
  · rfl

/-- C3 counterexample: in the run of `c3Manifest` on `c3Ctx`, the same step
fails its post-specs twice with failing rule lists `["a"]` and
`["a", "a"]` — equal as sets — while the sorted data key set is identical
at both failures; yet the fingerprints differ (Python's `sorted` keeps
duplicates), no `LoopDetectedError` is raised, both attempts are recorded,
and the run completes normally, against the claim. -/
theorem c3_counterexample :
    (["a"] : List String).toFinset = (["a", "a"] : List String).toFinset ∧
    (orchestratorRun c3Env c3Manifest 5 c3Ctx).map
        (fun r => ((r.status, r.error),
          r.steps.map (fun a => (a.step_id, a.status, a.fingerprint,
            (a.post_results.filter (fun x => !x.passed)).map (fun x => x.rule_id),
            pySorted (dictKeys a.context_after))))) =
      some ((RunStatus.completed, none),
        [("x", StepStatus.failed, "357b2ec17c9984d7", ["a"],
          ["_last_error", "_last_failed_step", "_retry_attempt"]),
         ("x", StepStatus.failed, "bab0013e807d100a", ["a", "a"],
          ["_last_error", "_last_failed_step", "_retry_attempt"])]) ∧
    ("357b2ec17c9984d7" : String) ≠ "bab0013e807d100a" :=
  ⟨by decide, rfl, by decide⟩

/-- C3 witness: the loop-detector contract applied to a concrete second
attempt whose post-spec failure repeats the fingerprint already recorded
for the step, raising `LoopDetectedError`. -/
theorem c3_witness :
    (evaluate_specs c3Env.specs c3LoopStep.pre_specs c3Ctx = (.ok [], c3Ctx) ∧
     dictGet c3Env.agents "idagent" =
       some (fun c => (Except.ok c : Except PyErr Context)) ∧
     all_passed [{ rule_id := "a", passed := false, message := "m1" }] = false ∧
     compute_fingerprint "y" c3Ctx.data ["a"] ∈ ["cda1a0d3d86a3800"]) ∧
    execStepAttempt c3Env c3Ctx c3LoopStep 2 [("y", ["cda1a0d3d86a3800"])] =
      .error (.loopDetected "y" "cda1a0d3d86a3800") := by
  refine ⟨⟨rfl, rfl, rfl, by decide⟩, ?_⟩
  have h := ((c3_loop_detector c3Env c3LoopStep 2).1 c3Ctx
      [("y", ["cda1a0d3d86a3800"])] [] c3Ctx
      (fun c => (Except.ok c : Except PyErr Context)) c3Ctx
      [{ rule_id := "a", passed := false, message := "m1" }] c3Ctx
      rfl rfl rfl rfl rfl rfl).1 (by decide)
  rw [h]
  rfl

end Workflow
